import Mathlib

/-!
Verification of the task-assistant backend (`backend/server.py`).

The development shallowly embeds the data model and the operations of the
server: Python strings are `String`/`List Char`, `datetime` values are a
record of calendar fields, JSON values parsed by `json.loads` are an
inductive `JValue` with an executable parser, MongoDB collections are lists
of records keyed by their `id` field, and the nondeterministic ingredients
(UUID generation, wall-clock reads, LLM responses) are explicit parameters.
Fallible Python code that raises is embedded as `Option`/`Except`.
-/

set_option maxRecDepth 8192
set_option linter.unusedVariables false

namespace TaskAssistant

/-! ## Python string primitives

Helpers mirroring the Python string operations the server uses:
`in` (substring membership of a single character), `str.find` / `str.rfind`,
slicing, `str.replace("Z", "+00:00")` (single-character pattern, so a
character-wise rewrite is exact), `str.strip()` and `str.split("|")`. -/

/-- `c in s` for a single character, as used by `'T' in date_str`. -/
def pyIn (c : Char) : List Char → Bool
  | [] => false
  | a :: rest => if a = c then true else pyIn c rest

/-- Index of the first occurrence of `c`, or `none` (`str.find` returns -1). -/
def findIdx? (c : Char) : List Char → Option Nat
  | [] => none
  | a :: rest => if a = c then some 0 else (findIdx? c rest).map (· + 1)

/-- Index of the last occurrence of `c`, or `none` (`str.rfind` returns -1). -/
def rfindIdx? (c : Char) (cs : List Char) : Option Nat :=
  (findIdx? c cs.reverse).map (fun i => cs.length - 1 - i)

/-- Python slice `s[a:b]` for `0 ≤ a ≤ b` (the only case the server reaches). -/
def pySlice (cs : List Char) (a b : Nat) : List Char :=
  (cs.take b).drop a

/-- `date_str.replace("Z", "+00:00")`: the pattern is a single character, so
replacing occurrence by occurrence is exactly Python's semantics. -/
def replaceZ : List Char → List Char
  | [] => []
  | a :: rest =>
    if a = 'Z' then '+' :: '0' :: '0' :: ':' :: '0' :: '0' :: replaceZ rest
    else a :: replaceZ rest

/-- Python whitespace test for `str.strip()` (the ASCII fragment). -/
def pySpace (c : Char) : Bool :=
  c = ' ' ∨ c = '\t' ∨ c = '\n' ∨ c = '\r' ∨ c = '\x0b' ∨ c = '\x0c'

/-- `s.strip()`. -/
def pyStrip (s : String) : String :=
  String.mk (((s.data.dropWhile pySpace).reverse.dropWhile pySpace).reverse)

/-- Value of a decimal digit character, or `none`. -/
def digitVal? (c : Char) : Option Nat :=
  if '0' ≤ c ∧ c ≤ '9' then some (c.toNat - 48) else none

/-- The decimal digit character for `k < 10`. -/
def digitChar (k : Nat) : Char := Char.ofNat (48 + k)

/-! ## JSON values and `json.loads`

`JValue` is the value space of `json.loads`.  The parser below models the
default `json.loads` on the fragment the server exercises: objects, arrays,
strings with the standard escapes, integer numerals, `true`/`false`/`null`,
and JSON whitespace, with the whole input consumed.  Non-integer numerics
(fractions, exponents, `NaN`/`Infinity`) and surrogate-pair `\uXXXX` escapes
are outside the modelled fragment. -/

inductive JValue where
  | null : JValue
  | bool (b : Bool) : JValue
  | num (n : Int) : JValue
  | str (s : String) : JValue
  | arr (elems : List JValue) : JValue
  | obj (members : List (String × JValue)) : JValue

/-- JSON whitespace accepted by `json.loads` between tokens. -/
def jsonWs (c : Char) : Bool :=
  c = ' ' ∨ c = '\t' ∨ c = '\n' ∨ c = '\r'

/-- Parse a JSON string body after the opening quote; returns the content and
the remainder after the closing quote. -/
def parseJString (fuel : Nat) (cs : List Char) : Option (List Char × List Char) :=
  match fuel, cs with
  | 0, _ => none
  | _, [] => none
  | fuel + 1, c :: rest =>
    if c = '"' then some ([], rest)
    else if c = '\\' then
      match rest with
      | [] => none
      | e :: rest' =>
        let esc : Option Char :=
          if e = '"' then some '"'
          else if e = '\\' then some '\\'
          else if e = '/' then some '/'
          else if e = 'b' then some '\x08'
          else if e = 'f' then some '\x0c'
          else if e = 'n' then some '\n'
          else if e = 'r' then some '\r'
          else if e = 't' then some '\t'
          else none
        match esc with
        | some ch => (parseJString fuel rest').map (fun (body, rem) => (ch :: body, rem))
        | none => none
    else if c.toNat < 32 then none   -- strict mode rejects raw control characters
    else (parseJString fuel rest).map (fun (body, rem) => (c :: body, rem))

/-- Parse an unsigned decimal integer numeral (JSON forbids leading zeros). -/
def parseJNat (cs : List Char) : Option (Nat × List Char) :=
  match cs with
  | [] => none
  | c :: rest =>
    match digitVal? c with
    | none => none
    | some 0 =>
      match rest with
      | r :: _ => if (digitVal? r).isSome then none else some (0, rest)
      | [] => some (0, [])
    | some d =>
      let rec go (acc : Nat) : List Char → Nat × List Char
        | [] => (acc, [])
        | c' :: rest' =>
          match digitVal? c' with
          | some d' => go (10 * acc + d') rest'
          | none => (acc, c' :: rest')
      some (go d rest)

mutual

/-- Parse one JSON value (after any leading whitespace is skipped by the
caller); returns the value and the unconsumed remainder. -/
def parseJValue (fuel : Nat) (cs : List Char) : Option (JValue × List Char) :=
  match fuel with
  | 0 => none
  | fuel + 1 =>
    match cs with
    | [] => none
    | c :: rest =>
      if c = '"' then
        (parseJString (rest.length + 1) rest).map
          (fun (body, rem) => (JValue.str (String.mk body), rem))
      else if c = '[' then
        parseJArray fuel (rest.dropWhile jsonWs)
      else if c = '{' then
        parseJObject fuel (rest.dropWhile jsonWs)
      else if c = 't' then
        match rest with
        | 'r' :: 'u' :: 'e' :: rem => some (JValue.bool true, rem)
        | _ => none
      else if c = 'f' then
        match rest with
        | 'a' :: 'l' :: 's' :: 'e' :: rem => some (JValue.bool false, rem)
        | _ => none
      else if c = 'n' then
        match rest with
        | 'u' :: 'l' :: 'l' :: rem => some (JValue.null, rem)
        | _ => none
      else if c = '-' then
        (parseJNat rest).map (fun (n, rem) => (JValue.num (-(n : Int)), rem))
      else
        (parseJNat cs).map (fun (n, rem) => (JValue.num (n : Int), rem))

/-- Parse the elements of a JSON array, positioned after `[` and whitespace. -/
def parseJArray (fuel : Nat) (cs : List Char) : Option (JValue × List Char) :=
  match fuel with
  | 0 => none
  | fuel + 1 =>
    match cs with
    | ']' :: rem => some (JValue.arr [], rem)
    | _ =>
      match parseJValue fuel cs with
      | none => none
      | some (v, rem) =>
        match parseJElems fuel (rem.dropWhile jsonWs) with
        | none => none
        | some (vs, rem') => some (JValue.arr (v :: vs), rem')

/-- Parse `(, value)* ]`, positioned at `,` or `]`. -/
def parseJElems (fuel : Nat) (cs : List Char) : Option (List JValue × List Char) :=
  match fuel with
  | 0 => none
  | fuel + 1 =>
    match cs with
    | ']' :: rem => some ([], rem)
    | ',' :: rest =>
      match parseJValue fuel (rest.dropWhile jsonWs) with
      | none => none
      | some (v, rem) =>
        match parseJElems fuel (rem.dropWhile jsonWs) with
        | none => none
        | some (vs, rem') => some (v :: vs, rem')
    | _ => none

/-- Parse the members of a JSON object, positioned after `{` and whitespace. -/
def parseJObject (fuel : Nat) (cs : List Char) : Option (JValue × List Char) :=
  match fuel with
  | 0 => none
  | fuel + 1 =>
    match cs with
    | '}' :: rem => some (JValue.obj [], rem)
    | _ =>
      match parseJMember fuel cs with
      | none => none
      | some (kv, rem) =>
        match parseJMembers fuel (rem.dropWhile jsonWs) with
        | none => none
        | some (kvs, rem') => some (JValue.obj (kv :: kvs), rem')

/-- Parse one `"key" : value` member. -/
def parseJMember (fuel : Nat) (cs : List Char) : Option ((String × JValue) × List Char) :=
  match fuel with
  | 0 => none
  | fuel + 1 =>
    match cs with
    | '"' :: rest =>
      match parseJString (rest.length + 1) rest with
      | none => none
      | some (key, rem) =>
        match rem.dropWhile jsonWs with
        | ':' :: rem' =>
          match parseJValue fuel (rem'.dropWhile jsonWs) with
          | none => none
          | some (v, rem'') => some ((String.mk key, v), rem'')
        | _ => none
    | _ => none

/-- Parse `(, member)* }`, positioned at `,` or `}`. -/
def parseJMembers (fuel : Nat) (cs : List Char) : Option (List (String × JValue) × List Char) :=
  match fuel with
  | 0 => none
  | fuel + 1 =>
    match cs with
    | '}' :: rem => some ([], rem)
    | ',' :: rest =>
      match rest.dropWhile jsonWs with
      | '"' :: rest' =>
        match parseJString (rest'.length + 1) rest' with
        | none => none
        | some (key, rem) =>
          match rem.dropWhile jsonWs with
          | ':' :: rem' =>
            match parseJValue fuel (rem'.dropWhile jsonWs) with
            | none => none
            | some (v, rem'') =>
              match parseJMembers fuel (rem''.dropWhile jsonWs) with
              | none => none
              | some (kvs, rem''') => some ((String.mk key, v) :: kvs, rem''')
          | _ => none
      | _ => none
    | _ => none

end

/-- `json.loads`: parse the whole input, allowing surrounding whitespace. -/
def jsonLoads (s : String) : Option JValue :=
  match parseJValue (s.length + 1) (s.data.dropWhile jsonWs) with
  | some (v, rem) => if rem.dropWhile jsonWs = [] then some v else none
  | none => none

/-- Python `dict.get`: last binding wins, as in a dict built by `json.loads`. -/
def pyDictGet (kvs : List (String × JValue)) (k : String) : Option JValue :=
  kvs.foldl (fun acc kv => if kv.1 = k then some kv.2 else acc) none

/-- Truthiness of a JSON-decoded Python value. -/
def jvTruthy : JValue → Bool
  | .null => false
  | .bool b => b
  | .num n => n ≠ 0
  | .str s => s ≠ ""
  | .arr l => !l.isEmpty
  | .obj l => !l.isEmpty

/-- Truthiness of `dict.get(key)` (absent key gives `None`, which is falsy). -/
def jtruthy : Option JValue → Bool
  | none => false
  | some v => jvTruthy v

/-- Python `repr` of a JSON-decoded value (string escaping not modelled). -/
def pyRepr : JValue → String
  | .null => "None"
  | .bool true => "True"
  | .bool false => "False"
  | .num n => toString n
  | .str s => "'" ++ s ++ "'"
  | .arr l => "[" ++ String.intercalate ", " (l.attach.map (fun x => pyRepr x.1)) ++ "]"
  | .obj l =>
    "\x7b" ++
      String.intercalate ", "
        (l.attach.map (fun x => "'" ++ x.1.1 ++ "': " ++ pyRepr x.1.2)) ++ "\x7d"
decreasing_by
  · simp_wf
    exact Nat.lt_of_lt_of_le (List.sizeOf_lt_of_mem x.2) (by omega)
  · simp_wf
    have h1 : sizeOf (x.1.2) < sizeOf x.1 := by
      obtain ⟨⟨a, b⟩, hx⟩ := x; simp
    exact Nat.lt_of_lt_of_le (Nat.lt_trans h1 (List.sizeOf_lt_of_mem x.2)) (by omega)

/-- Python `str()` of a JSON-decoded value. -/
def pyStr : JValue → String
  | .str s => s
  | v => pyRepr v

/-- Pydantic v1 coercion of a JSON-decoded value into a `str` field; `none`
models a `ValidationError`. -/
def pydanticStr : JValue → Option String
  | .str s => some s
  | .num n => some (toString n)
  | .bool b => some (if b then "True" else "False")
  | _ => none

/-! ## `datetime` and `datetime.fromisoformat`

A `datetime` value is its calendar fields plus an optional fixed UTC offset
(in microseconds; `none` is a naive datetime).  `fromiso` models CPython's
(3.10-vintage) `datetime.fromisoformat`, which the server relies on: a
`YYYY-MM-DD` date, an arbitrary single separator character, a time
`HH[:MM[:SS[.fff[fff]]]]` and an optional offset `±HH:MM[:SS[.ffffff]]`
whose length must be 5, 8 or 15.  `int()`'s tolerance of signs and
whitespace inside the fixed-width fields is outside the modelled fragment
(the server only ever receives digit characters there). -/

structure PyDatetime where
  year : Nat
  month : Nat
  day : Nat
  hour : Nat := 0
  minute : Nat := 0
  second : Nat := 0
  microsecond : Nat := 0
  tzOffset : Option Int := none
deriving DecidableEq, Repr

/-- Whether a year is a leap year (Gregorian rule, as in `datetime`). -/
def isLeap (y : Nat) : Bool :=
  y % 4 = 0 ∧ (y % 100 ≠ 0 ∨ y % 400 = 0)

/-- Days in a month, as validated by the `datetime` constructor. -/
def daysInMonth (y m : Nat) : Nat :=
  if m = 2 then (if isLeap y then 29 else 28)
  else if m = 4 ∨ m = 6 ∨ m = 9 ∨ m = 11 then 30
  else 31

/-- Range validation performed by the `datetime` constructor. -/
def validDatetimeFields (y mo dy h mi s us : Nat) : Prop :=
  1 ≤ y ∧ y ≤ 9999 ∧ 1 ≤ mo ∧ mo ≤ 12 ∧ 1 ≤ dy ∧ dy ≤ daysInMonth y mo ∧
    h ≤ 23 ∧ mi ≤ 59 ∧ s ≤ 59 ∧ us ≤ 999999

instance (y mo dy h mi s us : Nat) : Decidable (validDatetimeFields y mo dy h mi s us) := by
  unfold validDatetimeFields; infer_instance

/-- The `datetime(...)` constructor: validates field ranges (`ValueError` on
failure, embedded as `none`). -/
def mkDatetime (y mo dy h mi s us : Nat) (tz : Option Int) : Option PyDatetime :=
  if validDatetimeFields y mo dy h mi s us then some ⟨y, mo, dy, h, mi, s, us, tz⟩ else none

/-- Two-digit field, e.g. `int(tstr[0:2])` over digit characters. -/
def two (a b : Char) : Option Nat := do
  let x ← digitVal? a
  let y ← digitVal? b
  pure (10 * x + y)

/-- Four-digit field, e.g. `int(dtstr[0:4])` over digit characters. -/
def four (a b c d : Char) : Option Nat := do
  let x ← digitVal? a
  let y ← digitVal? b
  let z ← digitVal? c
  let w ← digitVal? d
  pure (1000 * x + 100 * y + 10 * z + w)

/-- Fractional-second digits: exactly three (milliseconds) or six
(microseconds) digits, as in `_parse_hh_mm_ss_ff`. -/
def fracVal : List Char → Option Nat
  | [a, b, c] => do pure ((← two a b) * 10 + (← digitVal? c)) >>= (pure <| · * 1000)
  | [a, b, c, d, e, f] => do
    pure ((← four a b c d) * 100 + 10 * (← digitVal? e) + (← digitVal? f))
  | _ => none

/-- `_parse_hh_mm_ss_ff`: `HH[:MM[:SS[.fff[fff]]]]` into
(hour, minute, second, microsecond); ranges are validated later by the
`datetime` constructor. -/
def hhmmss : List Char → Option (Nat × Nat × Nat × Nat)
  | [a, b] => do pure (← two a b, 0, 0, 0)
  | a :: b :: ':' :: c :: d :: rest => do
    let h ← two a b
    let mi ← two c d
    match rest with
    | [] => pure (h, mi, 0, 0)
    | ':' :: e :: f :: rest' => do
      let s ← two e f
      match rest' with
      | [] => pure (h, mi, s, 0)
      | '.' :: fs => do pure (h, mi, s, ← fracVal fs)
      | _ => none
    | _ => none
  | _ => none

/-- Split a time string at its timezone marker, modelling
`tz_pos = (tstr.find('-') + 1 or tstr.find('+') + 1)`: the first `-` wins,
else the first `+`; the returned flag is whether the sign is negative. -/
def tzSplit (ts : List Char) : List Char × Option (Bool × List Char) :=
  match findIdx? '-' ts with
  | some i => (ts.take i, some (true, ts.drop (i + 1)))
  | none =>
    match findIdx? '+' ts with
    | some i => (ts.take i, some (false, ts.drop (i + 1)))
    | none => (ts, none)

/-- `_parse_isoformat_time`: time components plus optional UTC offset in
microseconds.  `timezone()` requires the offset to be strictly between
-24h and +24h. -/
def parseIsoTime (ts : List Char) : Option (Nat × Nat × Nat × Nat × Option Int) :=
  let (timestr, tzpart) := tzSplit ts
  match hhmmss timestr with
  | none => none
  | some (h, mi, s, us) =>
    match tzpart with
    | none => some (h, mi, s, us, none)
    | some (isNeg, tzstr) =>
      if tzstr.length = 5 ∨ tzstr.length = 8 ∨ tzstr.length = 15 then
        match hhmmss tzstr with
        | none => none
        | some (th, tm, tsec, tus) =>
          let total : Int := ((th * 3600 + tm * 60 + tsec) * 1000000 + tus : Nat)
          let off : Int := if isNeg then -total else total
          if off.natAbs < 86400000000 then some (h, mi, s, us, some off) else none
      else none

/-- `datetime.fromisoformat` (CPython ≤ 3.10): `dstr = s[0:10]`,
`tstr = s[11:]`; the separator at index 10 is never inspected, and an empty
`tstr` yields midnight. -/
def fromiso (cs : List Char) : Option PyDatetime :=
  match cs with
  | c1 :: c2 :: c3 :: c4 :: s1 :: c5 :: c6 :: s2 :: c7 :: c8 :: rest =>
    (do
      let y ← four c1 c2 c3 c4
      if s1 = '-' ∧ s2 = '-' then
        let mo ← two c5 c6
        let dy ← two c7 c8
        match rest with
        | [] => mkDatetime y mo dy 0 0 0 0 none
        | _sep :: tstr =>
          if tstr.isEmpty then mkDatetime y mo dy 0 0 0 0 none
          else do
            let (h, mi, s, us, tz) ← parseIsoTime tstr
            mkDatetime y mo dy h mi s us tz
      else none)
  | _ => none

/-- The deadline-string handling shared by `process_natural_language_task`
(lines 857-864), `process_natural_language_task_internal` (lines 243-248),
the subtask-deadline branches and `create_task_from_llm` (lines 1065-1070):
strings containing `T` go through `fromisoformat` after `Z` is replaced by
`+00:00`; other strings get `T23:59:59` appended.  The surrounding
`try/except` turns any parse failure into "no deadline" (`none`). -/
def parse_deadline (s : String) : Option PyDatetime :=
  if pyIn 'T' s.data then fromiso (replaceZ s.data)
  else fromiso (s.data ++ ('T' :: '2' :: '3' :: ':' :: '5' :: '9' :: ':' :: '5' :: '9' :: []))

/-- The guard around deadline parsing in the orchestrator (lines 855-868):
the field must be truthy and differ from the literal tokens
`"not specified"` and `"null"`; a non-string value raises `TypeError` at
`'T' in date_str`, which the `except` turns into "no deadline". -/
def deadlineField : Option JValue → Option PyDatetime
  | some (.str s) =>
    -- for a string the truthiness test is `s ≠ ""`
    if s ≠ "" ∧ s ≠ "not specified" ∧ s ≠ "null" then parse_deadline s else none
  | _ => none
    -- absent/falsy values skip the branch; truthy non-string values raise
    -- `TypeError` at `'T' in date_str`, caught by the `except`: no deadline

/-- Month names for `strftime("%B %d, %Y")`. -/
def monthName : Nat → String
  | 1 => "January" | 2 => "February" | 3 => "March" | 4 => "April"
  | 5 => "May" | 6 => "June" | 7 => "July" | 8 => "August"
  | 9 => "September" | 10 => "October" | 11 => "November" | 12 => "December"
  | _ => ""

/-- Zero-padded two-digit rendering, as `%d` in `strftime`. -/
def pad2 (n : Nat) : String :=
  if n < 10 then "0" ++ toString n else toString n

/-- `formatDate` (line 1105): `strftime("%B %d, %Y")`, empty for `None`. -/
def formatDate (d : PyDatetime) : String :=
  monthName d.month ++ " " ++ pad2 d.day ++ ", " ++ toString d.year

/-- Day number of a calendar date (days-from-civil), used to embed
`timedelta` arithmetic on `datetime` values. -/
def daysFromCivil (y m d : Nat) : Int :=
  let y' : Int := (y : Int) - (if m ≤ 2 then 1 else 0)
  let era : Int := (if 0 ≤ y' then y' else y' - 399) / 400
  let yoe : Int := y' - era * 400
  let mp : Int := ((m : Int) + 9) % 12
  let doy : Int := (153 * mp + 2) / 5 + (d : Int) - 1
  let doe : Int := yoe * 365 + yoe / 4 - yoe / 100 + doy
  era * 146097 + doe - 719468

/-- Seconds since the epoch of a (naive) `datetime`, used to embed
`datetime` subtraction and comparison. -/
def epochSeconds (d : PyDatetime) : Int :=
  daysFromCivil d.year d.month d.day * 86400 + d.hour * 3600 + d.minute * 60 + d.second

/-! ## Data model

The pydantic models of `server.py`.  `id`/`created_at`/`updated_at`
default factories (`uuid4`, `utcnow`) are supplied by the callers as
explicit parameters.  Update DTOs use `Option` for "field absent from the
payload" (pydantic's `exclude_unset`); for fields that are themselves
`Optional` in the stored model an inner `Option` is the field value.
Explicit JSON `null`s for non-`Optional` fields (which would only blow up
at response validation) are outside the modelled fragment. -/

structure User where
  id : String
  username : String
  created_at : PyDatetime
deriving DecidableEq, Repr

structure Subtask where
  id : String
  task_id : String
  title : Option String
  description : String
  completed : Bool := false
  deadline : Option PyDatetime := none
  order : Int := 0
  created_at : PyDatetime
  updated_at : PyDatetime
deriving DecidableEq, Repr

/-- `Subtask.__init__`: a missing or `None` title defaults to the
description. -/
def mkSubtask (id task_id : String) (title : Option String) (description : String)
    (deadline : Option PyDatetime) (order : Int) (now : PyDatetime) : Subtask :=
  { id, task_id, title := some (title.getD description), description,
    completed := false, deadline, order, created_at := now, updated_at := now }

structure Task where
  id : String
  user_id : String
  title : String
  description : Option String := none
  deadline : Option PyDatetime := none
  priority : String := "medium"
  completed : Bool := false
  subtasks : List Subtask := []
  emotional_support : Option String := none
  created_at : PyDatetime
  updated_at : PyDatetime
deriving DecidableEq, Repr

structure TaskUpdate where
  title : Option String := none
  description : Option (Option String) := none
  deadline : Option (Option PyDatetime) := none
  priority : Option String := none
  completed : Option Bool := none
deriving DecidableEq, Repr

/-- `task_update.dict(exclude_unset=True)` is non-empty. -/
def TaskUpdate.isSet (u : TaskUpdate) : Bool :=
  u.title.isSome || u.description.isSome || u.deadline.isSome ||
    u.priority.isSome || u.completed.isSome

structure SubtaskUpdate where
  title : Option (Option String) := none
  description : Option String := none
  completed : Option Bool := none
  deadline : Option (Option PyDatetime) := none
  order : Option Int := none
deriving DecidableEq, Repr

/-- `subtask_update.dict(exclude_unset=True)` is non-empty. -/
def SubtaskUpdate.isSet (u : SubtaskUpdate) : Bool :=
  u.title.isSome || u.description.isSome || u.completed.isSome ||
    u.deadline.isSome || u.order.isSome

structure NLInput where
  text : String
  user_id : String
deriving DecidableEq, Repr

/-- HTTP errors that reach the boundary: `HTTPException(404)` and the 500
produced by an exception escaping a handler. -/
inductive HttpError where
  | notFound (detail : String)
  | internal (detail : String)
deriving DecidableEq, Repr

/-! ## MongoDB collection primitives

A collection is a list of documents; `find_one({"id": k})` returns the
first match and `update_one({"id": k}, {"$set": ...})` rewrites the first
match, so the pair is embedded as `find?` and `setFirst`. -/

/-- `update_one({"id": task_id}, ...)`: rewrite the first matching document. -/
def setFirst (tasks : List Task) (task_id : String) (f : Task → Task) : List Task :=
  match tasks with
  | [] => []
  | t :: rest =>
    if t.id == task_id then f t :: rest else t :: setFirst rest task_id f

/-- Replace the element at an index (the in-place mutation
`task["subtasks"][subtask_index] = ...`). -/
def modifyIdx (l : List Subtask) (i : Nat) (f : Subtask → Subtask) : List Subtask :=
  match l, i with
  | [], _ => []
  | x :: rest, 0 => f x :: rest
  | x :: rest, i + 1 => x :: modifyIdx rest i f

/-- Re-fetch after an update (`db.tasks.find_one` on the written store); the
`internal` branch is unreachable because the document was just matched. -/
def refetch (tasks : List Task) (task_id : String) : Except HttpError Task :=
  match tasks.find? (fun t => t.id == task_id) with
  | some t => .ok t
  | none => .error (.internal "task not found after update")

/-! ## CRUD endpoints -/

/-- `GET /tasks/{task_id}` (lines 686-691). -/
def get_task (tasks : List Task) (task_id : String) : Except HttpError Task :=
  match tasks.find? (fun t => t.id == task_id) with
  | none => .error (.notFound "Task not found")
  | some t => .ok t

/-- `GET /tasks/user/{user_id}` (lines 694-697). -/
def get_user_tasks (tasks : List Task) (user_id : String) : List Task :=
  tasks.filter (fun t => t.user_id == user_id)

/-- The `$set update_data` effect of `PUT /tasks/{task_id}` (line 719):
exactly the payload fields plus `updated_at` are written. -/
def applyTaskUpdate (t : Task) (u : TaskUpdate) (now : PyDatetime) : Task :=
  { t with
    title := u.title.getD t.title
    description := u.description.getD t.description
    deadline := u.deadline.getD t.deadline
    priority := u.priority.getD t.priority
    completed := u.completed.getD t.completed
    updated_at := now }

/-- `PUT /tasks/{task_id}` (lines 700-723).  When the payload sets
`completed`, lines 714-716 set `completed := True` on every entry of the
*local* `task["subtasks"]` copy, but the DB write `$set update_data`
(line 719) carries only the `TaskUpdate` fields, so the stored subtasks
(and hence the re-fetched response) are unchanged. -/
def update_task (tasks : List Task) (task_id : String) (u : TaskUpdate)
    (now : PyDatetime) : Except HttpError Task × List Task :=
  match tasks.find? (fun t => t.id == task_id) with
  | none => (.error (.notFound "Task not found"), tasks)
  | some _ =>
    if u.isSet then
      let tasks' := setFirst tasks task_id (fun t => applyTaskUpdate t u now)
      (refetch tasks' task_id, tasks')
    else
      (refetch tasks task_id, tasks)

/-- The in-place field writes of `PUT .../subtasks/{subtask_id}`
(lines 786-790) plus the subtask `updated_at` stamp. -/
def applySubtaskUpdate (s : Subtask) (u : SubtaskUpdate) (now : PyDatetime) : Subtask :=
  { s with
    title := u.title.getD s.title
    description := u.description.getD s.description
    completed := u.completed.getD s.completed
    deadline := u.deadline.getD s.deadline
    order := u.order.getD s.order
    updated_at := now }

/-- `PUT /tasks/{task_id}/subtasks/{subtask_id}` (lines 766-803): update the
subtask's fields, then store the new subtask array together with
`completed := all(subtask.completed)` recomputed over it (line 793). -/
def update_subtask (tasks : List Task) (task_id subtask_id : String)
    (u : SubtaskUpdate) (now : PyDatetime) : Except HttpError Task × List Task :=
  match tasks.find? (fun t => t.id == task_id) with
  | none => (.error (.notFound "Task not found"), tasks)
  | some t =>
    match t.subtasks.findIdx? (fun s => s.id == subtask_id) with
    | none => (.error (.notFound "Subtask not found"), tasks)
    | some i =>
      if u.isSet then
        let newSubs := modifyIdx t.subtasks i (fun s => applySubtaskUpdate s u now)
        let all_completed := newSubs.all (fun s => s.completed)
        let tasks' := setFirst tasks task_id (fun old =>
          { old with subtasks := newSubs, completed := all_completed, updated_at := now })
        (refetch tasks' task_id, tasks')
      else
        (refetch tasks task_id, tasks)

/-! ## LLM task analysis (`analyze_task_with_llm`, lines 443-565)

The OpenAI call is abstracted as `llmResp : Option String` — `some text` is
a returned completion, `none` is a raised exception (unreachable provider,
timeout, HTTP error). -/

/-- The fixed fallback analysis returned when no key is configured
(lines 454-460), when no JSON can be extracted (lines 548-554) and when the
API call raises (lines 559-565); all three literals are identical. -/
def fallbackAnalysis (text : String) : JValue :=
  .obj [("title", .str text),
        ("subtasks", .arr [.str "Review task details"]),
        ("deadline", .null),
        ("priority", .str "medium"),
        ("emotional_support", .str "Let's start by clarifying what needs to be done.")]

/-- The response-extraction logic (lines 529-554): direct `json.loads`,
then the first-`{` / last-`}` slice guarded by
`json_start >= 0 and json_end > json_start`; a failing slice parse raises
`JSONDecodeError` into the bare `except`, which returns the fallback — but
when the guard itself is false no exception occurs, control falls off the
end of the function, and Python returns `None`. -/
def extract_task_json (generated_text : String) (text : String) : Option JValue :=
  match jsonLoads generated_text with
  | some v => some v
  | none =>
    match findIdx? '{' generated_text.data, rfindIdx? '}' generated_text.data with
    | some json_start, some jr =>
      let json_end := jr + 1
      if json_start < json_end then
        match jsonLoads (String.mk (pySlice generated_text.data json_start json_end)) with
        | some v => some v
        | none => some (fallbackAnalysis text)
      else none
    | _, _ => none

/-- `analyze_task_with_llm` (lines 443-565). -/
def analyze_task_with_llm (openaiKey : Bool) (llmResp : Option String)
    (text : String) : Option JValue :=
  if !openaiKey then some (fallbackAnalysis text)
  else
    match llmResp with
    | none => some (fallbackAnalysis text)
    | some generated_text => extract_task_json generated_text text

/-! ## Natural-language task processing -/

/-- Python iteration over the value of `task_analysis.get("subtasks", [])`
(`enumerate` accepts any iterable: a string yields its characters, a dict
its keys; other scalars raise `TypeError`). -/
def pyIter : JValue → Option (List JValue)
  | .arr l => some l
  | .str s => some (s.data.map (fun c => JValue.str (String.mk [c])))
  | .obj kvs => some (kvs.map (fun kv => JValue.str kv.1))
  | _ => none

/-- The subtask-deadline branch (endpoint lines 891-905, internal
lines 270-282): truthiness guard, then the shared parse under `try/except`
(non-string values raise `TypeError` at `'T' in ...`, caught). -/
def subtaskDeadlineField : Option JValue → Option PyDatetime
  | some (.str s) => if s ≠ "" then parse_deadline s else none
  | _ => none

/-- One iteration of the endpoint's subtask loop (lines 884-925): dict items
give description/deadline/title, other items are legacy strings whose text
is both description and title; the per-item `try/except` skips an item
whose `Subtask(...)` construction fails (`none`). -/
def buildSubtaskEndpoint (tid sid : String) (i : Nat) (now : PyDatetime)
    (item : JValue) : Option Subtask :=
  match item with
  | .obj kvs =>
    let descJ := (pyDictGet kvs "description").getD (.str "")
    let ddl := subtaskDeadlineField (pyDictGet kvs "deadline")
    do
      let desc ← pydanticStr descJ
      let title : Option String ←
        match pyDictGet kvs "title" with
        | none => some none
        | some .null => some none
        | some v => (pydanticStr v).map some
      pure (mkSubtask sid tid title desc ddl (Int.ofNat i) now)
  | v => some (mkSubtask sid tid (some (pyStr v)) (pyStr v) none (Int.ofNat i) now)

/-- One iteration of the internal subtask loop (lines 265-294): same field
mapping, but no `title` argument (so it defaults to the description) and no
per-item `try/except`. -/
def buildSubtaskInternal (tid sid : String) (i : Nat) (now : PyDatetime)
    (item : JValue) : Option Subtask :=
  match item with
  | .obj kvs =>
    let descJ := (pyDictGet kvs "description").getD (.str "")
    let ddl := subtaskDeadlineField (pyDictGet kvs "deadline")
    (pydanticStr descJ).map (fun desc => mkSubtask sid tid none desc ddl (Int.ofNat i) now)
  | v => some (mkSubtask sid tid none (pyStr v) none (Int.ofNat i) now)

/-- `POST /process-task` (lines 824-931).  `uuid` supplies the
`uuid4()` draws (`uuid 0` for the task, `uuid (i+1)` for subtask `i`) and
`now` the `utcnow()` reads.  Unhandled Python exceptions (`AttributeError`
on a `None`/non-dict analysis, `ValidationError` from pydantic,
`TypeError` from `enumerate`) escape the handler and surface as HTTP 500,
embedded as `HttpError.internal`. -/
def process_natural_language_task (users : List User) (tasks : List Task)
    (openaiKey togetherKey : Bool) (llmResp : Option String) (input : NLInput)
    (uuid : Nat → String) (now : PyDatetime) : Except HttpError Task × List Task :=
  if (users.find? (fun u => u.id == input.user_id)).isNone then
    (.error (.notFound "User not found"), tasks)
  else if !openaiKey && !togetherKey then
    let task : Task := { id := uuid 0, user_id := input.user_id, title := input.text,
                         description := some input.text, priority := "medium",
                         created_at := now, updated_at := now }
    (.ok task, tasks ++ [task])
  else
    match analyze_task_with_llm openaiKey llmResp input.text with
    | none => (.error (.internal "AttributeError"), tasks)
    | some (.obj kvs) =>
      let deadline := deadlineField (pyDictGet kvs "deadline")
      let titleJ := (pyDictGet kvs "title").getD (.str input.text)
      let prioJ := (pyDictGet kvs "priority").getD (.str "medium")
      let emoJ := (pyDictGet kvs "emotional_support").getD (.str "")
      match pydanticStr titleJ, pydanticStr prioJ with
      | some title, some priority =>
        let emotional : Option (Option String) :=
          match emoJ with
          | .null => some none
          | v => (pydanticStr v).map some
        match emotional with
        | none => (.error (.internal "ValidationError"), tasks)
        | some emo =>
          match pyIter ((pyDictGet kvs "subtasks").getD (.arr [])) with
          | none => (.error (.internal "TypeError"), tasks)
          | some items =>
            let tid := uuid 0
            let subs := items.enum.filterMap
              (fun p => buildSubtaskEndpoint tid (uuid (p.1 + 1)) p.1 now p.2)
            let task : Task := { id := tid, user_id := input.user_id, title,
                                 description := some input.text, deadline, priority,
                                 subtasks := subs, emotional_support := emo,
                                 created_at := now, updated_at := now }
            (.ok task, tasks ++ [task])
      | _, _ => (.error (.internal "ValidationError"), tasks)
    | some _ => (.error (.internal "AttributeError"), tasks)

/-- Result dictionary of `process_natural_language_task_internal`
(lines 300-311). -/
inductive InternalResult where
  | ok (task_id title : String) (subtasks_count : Nat) (deadline priority : String)
  | err (msg : String)
deriving DecidableEq, Repr

/-- `process_natural_language_task_internal` (lines 227-311): same pipeline
as the endpoint, but the whole body sits in one `try/except`, so any
exception is returned as an error dictionary instead of an HTTP error (the
embedded message names the exception class, standing in for `str(e)`). -/
def process_natural_language_task_internal (users : List User) (tasks : List Task)
    (openaiKey : Bool) (llmResp : Option String) (text user_id : String)
    (uuid : Nat → String) (now : PyDatetime) : InternalResult × List Task :=
  if (users.find? (fun u => u.id == user_id)).isNone then
    (.err "User not found", tasks)
  else
    match analyze_task_with_llm openaiKey llmResp text with
    | none => (.err "Failed to process task: AttributeError", tasks)
    | some (.obj kvs) =>
      let deadline := deadlineField (pyDictGet kvs "deadline")
      let titleJ := (pyDictGet kvs "title").getD (.str text)
      let prioJ := (pyDictGet kvs "priority").getD (.str "medium")
      let emoJ := (pyDictGet kvs "emotional_support").getD (.str "")
      match pydanticStr titleJ, pydanticStr prioJ with
      | some title, some priority =>
        let emotional : Option (Option String) :=
          match emoJ with
          | .null => some none
          | v => (pydanticStr v).map some
        match emotional with
        | none => (.err "Failed to process task: ValidationError", tasks)
        | some emo =>
          match pyIter ((pyDictGet kvs "subtasks").getD (.arr [])) with
          | none => (.err "Failed to process task: TypeError", tasks)
          | some items =>
            let tid := uuid 0
            match items.enum.mapM
                (fun p => buildSubtaskInternal tid (uuid (p.1 + 1)) p.1 now p.2) with
            | none => (.err "Failed to process task: ValidationError", tasks)
            | some subs =>
              let task : Task := { id := tid, user_id, title,
                                   description := some text, deadline, priority,
                                   subtasks := subs, emotional_support := emo,
                                   created_at := now, updated_at := now }
              (.ok task.id task.title subs.length
                 (match task.deadline with
                  | some d => formatDate d
                  | none => "No deadline")
                 task.priority,
               tasks ++ [task])
      | _, _ => (.err "Failed to process task: ValidationError", tasks)
    | some _ => (.err "Failed to process task: AttributeError", tasks)

/-! ## The agent tools, pending queues and chat flow -/

/-- The `task_data` dictionary assembled by the create-task tool. -/
structure TaskData where
  title : String
  description : Option String := none
  priority : Option String := none
  deadline : Option String := none
deriving DecidableEq, Repr

/-- Result dictionary of `create_task_from_llm` (lines 1091-1098). -/
inductive CreateResult where
  | ok (message task_id title priority deadline : String)
  | err (msg : String)
deriving DecidableEq, Repr

/-- The `Task` assembled by `create_task_from_llm` (lines 1062-1084): the
truthiness-guarded deadline parse and the field mapping of the `Task(...)`
construction; `support` is the string returned by
`generate_emotional_support`, which never raises (it catches its own
exceptions and has a fixed fallback). -/
def llmTask (td : TaskData) (user_id : String) (uuid : Nat → String)
    (now : PyDatetime) (support : String) : Task :=
  { id := uuid 0, user_id, title := td.title, description := td.description,
    deadline := match td.deadline with
                | some s => if s ≠ "" then parse_deadline s else none
                | none => none,
    priority := td.priority.getD "medium", emotional_support := some support,
    created_at := now, updated_at := now }

/-- `create_task_from_llm` (lines 1044-1103). -/
def create_task_from_llm (users : List User) (tasks : List Task) (td : TaskData)
    (user_id : String) (uuid : Nat → String) (now : PyDatetime) (support : String) :
    CreateResult × List Task :=
  if (users.find? (fun u => u.id == user_id)).isNone then
    (.err "User not found", tasks)
  else
    let task := llmTask td user_id uuid now support
    (.ok ("Task '" ++ task.title ++ "' created successfully") task.id task.title
       task.priority
       (match task.deadline with | some d => formatDate d | none => "No deadline"),
     tasks ++ [task])

/-- The process-wide state the chat flow touches: the document store, the
two module-level pending queues (lines 188-189) and the per-user chat
histories. -/
structure ChatState where
  users : List User
  tasks : List Task
  pending_tasks : List (TaskData × String)
  pending_analyzed_tasks : List (String × String)
  chat_histories : List (String × List (String × String))
deriving DecidableEq, Repr

/-- The query parsing and priority validation of the create-task tool
(lines 321-339): split on `|`, strip, default, and coerce an invalid
priority to `"medium"`. -/
def syncTaskData (query : String) : TaskData :=
  let parts := query.splitOn "|"
  let title := pyStrip (parts.getD 0 "")
  let description := if parts.length > 1 then some (pyStrip (parts.getD 1 "")) else none
  let p2 := pyStrip (parts.getD 2 "")
  let priority := if parts.length > 2 && p2 ≠ "" then p2 else "medium"
  let p3 := pyStrip (parts.getD 3 "")
  let deadline := if parts.length > 3 && p3 ≠ "" then some p3 else none
  let priority :=
    if priority = "low" ∨ priority = "medium" ∨ priority = "high" then priority
    else "medium"
  { title, description, priority := some priority, deadline }

/-- The `create_task` tool of `get_agent_tools` (lines 318-370): parse the
`|`-separated query, then run `create_task_from_llm` to completion via the
event-loop bridging of lines 341-362 (every branch either completes the
coroutine or waits for its bounded timeout before returning; none touches
the pending queues), and format the acknowledgment from the persisted
result. -/
def create_task_sync (query : String) (user_id : String) (st : ChatState)
    (uuid : Nat → String) (now : PyDatetime) (support : String) : String × ChatState :=
  let (res, tasks') := create_task_from_llm st.users st.tasks
    (syncTaskData query) user_id uuid now support
  let st' := { st with tasks := tasks' }
  match res with
  | .err m => ("Error: " ++ m, st')
  | .ok _ _ t p dstr =>
    ("✅ Task '" ++ t ++ "' has been created with " ++ p ++ " priority" ++
       (if dstr ≠ "No deadline" then " and deadline " ++ dstr else "."), st')

/-- The `decompose_task` tool of `get_agent_tools` (lines 373-405): runs
`process_natural_language_task_internal` to completion, same bridging. -/
def decompose_task_sync (task_text : String) (user_id : String) (st : ChatState)
    (openaiKey : Bool) (llmResp : Option String) (uuid : Nat → String)
    (now : PyDatetime) : String × ChatState :=
  let (res, tasks') := process_natural_language_task_internal st.users st.tasks
    openaiKey llmResp task_text user_id uuid now
  let st' := { st with tasks := tasks' }
  match res with
  | .err m => ("Error: " ++ m, st')
  | .ok _ title cnt dstr prio =>
    ("✅ Task '" ++ title ++ "' has been created with " ++ prio ++
       " priority and broken down into " ++ toString cnt ++ " subtasks" ++
       (if dstr ≠ "No deadline" then ", due by " ++ dstr else "."), st')

/-- `process_pending_tasks` (lines 199-224): copy and clear both queues,
then materialize each entry (per-entry failures are logged and dropped).
`uuid i` supplies the `uuid4()` draws for the `i`-th processed entry. -/
def process_pending_tasks (st : ChatState) (openaiKey : Bool)
    (llmResp : Option String) (uuid : Nat → Nat → String) (now : PyDatetime)
    (support : String) : ChatState :=
  let toProcess := st.pending_tasks
  let st1 := { st with pending_tasks := [] }
  let st2 := toProcess.enum.foldl (fun acc p =>
    { acc with tasks :=
        (create_task_from_llm acc.users acc.tasks p.2.1 p.2.2 (uuid p.1) now support).2 }) st1
  let analyzed := st2.pending_analyzed_tasks
  let st3 := { st2 with pending_analyzed_tasks := [] }
  analyzed.enum.foldl (fun acc p =>
    { acc with tasks :=
        (process_natural_language_task_internal acc.users acc.tasks openaiKey llmResp
          p.2.1 p.2.2 (uuid (toProcess.length + p.1)) now).2 }) st3

/-- Upsert of `db.chat_history.replace_one(..., upsert=True)`. -/
def upsertHistory (hs : List (String × List (String × String))) (uid : String)
    (h : List (String × String)) : List (String × List (String × String)) :=
  match hs with
  | [] => [(uid, h)]
  | x :: rest => if x.1 == uid then (uid, h) :: rest else x :: upsertHistory rest uid h

/-- `POST /chat` (lines 1216-1373), with the default `openai` provider.
`agentRun` abstracts `agent_chain.ainvoke`: the LLM-driven agent, which may
invoke the two synchronous tools and thereby mutate the store.  Note the
order at the end of the handler: the response is computed (line 1343), the
history is saved, `process_pending_tasks` is awaited (line 1368), and only
then is the response returned (line 1370). -/
def chat_with_llm (st : ChatState) (message user_id : String) (openaiKey : Bool)
    (agentRun : ChatState → String × ChatState) (llmResp : Option String)
    (uuid : Nat → Nat → String) (now : PyDatetime) (support : String) :
    Except HttpError String × ChatState :=
  if (st.users.find? (fun u => u.id == user_id)).isNone then
    (.error (.notFound "User not found"), st)
  else if !openaiKey then
    (.ok "OpenAI chat functionality is unavailable. Please set up your OPENAI_API_KEY.",
     st)
  else
    let hist := ((st.chat_histories.find? (fun h => h.1 == user_id)).map Prod.snd).getD []
    let hist1 := hist ++ [("user", message)]
    let (ai_response, st1) := agentRun st
    let hist2 := hist1 ++ [("ai", ai_response)]
    let st2 := { st1 with chat_histories := upsertHistory st1.chat_histories user_id hist2 }
    let st3 := process_pending_tasks st2 openaiKey llmResp uuid now support
    (.ok ai_response, st3)

/-! ## Statistics and the feedback cache -/

structure PrioCounts where
  high : Nat
  medium : Nat
  low : Nat
deriving DecidableEq, Repr

structure StatusCounts where
  completed : Nat
  in_progress : Nat
deriving DecidableEq, Repr

/-- The `TaskStatistics` response model (lines 151-164); float fields are
embedded as rationals. -/
structure TaskStatistics where
  total_tasks : Nat
  completed_tasks : Nat
  completion_rate : Rat
  tasks_by_priority : PrioCounts
  tasks_by_status : StatusCounts
  recent_completions : List Task
  average_completion_time : Option Rat
  total_subtasks : Nat
  completed_subtasks : Nat
  subtask_completion_rate : Rat
  subtasks_by_priority : PrioCounts
  subtasks_by_status : StatusCounts
  average_subtasks_per_task : Rat
deriving DecidableEq, Repr

/-- `GET /statistics/user/{user_id}` (lines 952-1039).  `now` is the
handler's `utcnow()` read; `datetime` arithmetic is embedded through
`epochSeconds`.  (The local `recent_subtask_completions` of lines 1003-1007
is computed but unused by the handler and is omitted.) -/
def get_user_statistics (allTasks : List Task) (user_id : String)
    (now : PyDatetime) : TaskStatistics :=
  let tasks := allTasks.filter (fun t => t.user_id == user_id)
  let total_tasks := tasks.length
  let completed_tasks := (tasks.filter (fun t => t.completed)).length
  let completion_rate : Rat :=
    if total_tasks > 0 then (completed_tasks * 100 : Rat) / (total_tasks : Rat) else 0
  let tasks_by_priority : PrioCounts :=
    ⟨(tasks.filter (fun t => t.priority == "high")).length,
     (tasks.filter (fun t => t.priority == "medium")).length,
     (tasks.filter (fun t => t.priority == "low")).length⟩
  let tasks_by_status : StatusCounts := ⟨completed_tasks, total_tasks - completed_tasks⟩
  let one_week_ago := epochSeconds now - 604800
  let recent_completions := tasks.filter (fun t =>
    t.completed && decide (one_week_ago ≤ epochSeconds t.updated_at))
  let completion_times : List Rat := tasks.filterMap (fun t =>
    if t.completed then
      some (((epochSeconds t.updated_at - epochSeconds t.created_at : Int) : Rat) / 3600)
    else none)
  let average_completion_time : Option Rat :=
    if completion_times.length > 0 then
      some (completion_times.sum / (completion_times.length : Rat))
    else none
  let all_subtasks := (tasks.map (fun t => t.subtasks)).flatten
  let total_subtasks := all_subtasks.length
  let completed_subtasks := (all_subtasks.filter (fun s => s.completed)).length
  let subtask_completion_rate : Rat :=
    if total_subtasks > 0 then (completed_subtasks * 100 : Rat) / (total_subtasks : Rat)
    else 0
  -- the nested comprehension counts (subtask, matching-task) pairs
  let subPrio (p : String) : Nat :=
    (all_subtasks.map (fun s =>
      (tasks.filter (fun t => t.id == s.task_id && t.priority == p)).length)).sum
  let subtasks_by_priority : PrioCounts := ⟨subPrio "high", subPrio "medium", subPrio "low"⟩
  let subtasks_by_status : StatusCounts :=
    ⟨completed_subtasks, total_subtasks - completed_subtasks⟩
  let average_subtasks_per_task : Rat :=
    if total_tasks > 0 then (total_subtasks : Rat) / (total_tasks : Rat) else 0
  { total_tasks, completed_tasks, completion_rate, tasks_by_priority, tasks_by_status,
    recent_completions, average_completion_time, total_subtasks, completed_subtasks,
    subtask_completion_rate, subtasks_by_priority, subtasks_by_status,
    average_subtasks_per_task }

/-- `CACHE_DURATION = 3600` (line 68). -/
def CACHE_DURATION : Int := 3600

/-- `FEEDBACK_CACHE` (line 67): fingerprint → (feedback, timestamp). -/
abbrev FeedbackCache := List (String × JValue × Int)

/-- `cache_key in FEEDBACK_CACHE` / `FEEDBACK_CACHE[cache_key]`. -/
def cacheLookup (c : FeedbackCache) (k : String) : Option (JValue × Int) :=
  (c.find? (fun e => e.1 == k)).map (fun e => e.2)

/-- `FEEDBACK_CACHE[cache_key] = (feedback, time.time())`. -/
def cacheSet : FeedbackCache → String → JValue × Int → FeedbackCache
  | [], k, v => [(k, v.1, v.2)]
  | e :: rest, k, v => if e.1 == k then (k, v.1, v.2) :: rest else e :: cacheSet rest k v

/-- The fingerprint
`f"{total_tasks}_{completed_tasks}_{total_subtasks}_{completed_subtasks}"`
(line 1379). -/
def statsCacheKey (stats : TaskStatistics) : String :=
  toString stats.total_tasks ++ "_" ++ toString stats.completed_tasks ++ "_" ++
    toString stats.total_subtasks ++ "_" ++ toString stats.completed_subtasks

/-- The fixed payload cached when no API key is configured (lines 1388-1403). -/
def serviceUnavailableFeedback : JValue :=
  .obj [("summary", .str "AI Analysis Service Unavailable"),
        ("insights", .arr
          [.str "The AI analysis service is currently not configured",
           .str "Please check your API key configuration",
           .str "Contact your administrator for assistance"]),
        ("suggestions", .arr
          [.str "Configure the OpenAI API key to enable AI analysis",
           .str "Check the backend logs for more information",
           .str "Try refreshing the page once the service is configured"]),
        ("motivation", .str
          "Your productivity journey is unique. Even without AI analysis, you're making progress!"),
        ("achievements", .arr []),
        ("growth_areas", .arr [])]

/-- The fixed payload cached when the model's output has a brace-delimited
slice that still fails to parse (lines 1516-1531). -/
def serviceErrorParseFeedback : JValue :=
  .obj [("summary", .str "AI Analysis Service Error"),
        ("insights", .arr
          [.str "The AI service returned an invalid response",
           .str "Please try again later",
           .str "Contact support if the issue persists"]),
        ("suggestions", .arr
          [.str "Try refreshing the page",
           .str "Check your internet connection",
           .str "Contact support if the issue persists"]),
        ("motivation", .str
          "Remember that productivity tools are meant to serve you, not the other way around. Your worth is not measured by these statistics."),
        ("achievements", .arr []),
        ("growth_areas", .arr [])]

/-- The payload cached when the API call itself raises (lines 1537-1552);
`e` is `str(e)`. -/
def serviceErrorExcFeedback (e : String) : JValue :=
  .obj [("summary", .str "AI Analysis Service Error"),
        ("insights", .arr
          [.str "The AI service encountered an error",
           .str ("Error details: " ++ e),
           .str "Please try again later"]),
        ("suggestions", .arr
          [.str "Check your internet connection",
           .str "Verify the AI service is running",
           .str "Contact support if the issue persists"]),
        ("motivation", .str
          "Even when technology fails, your productivity journey continues. Take this moment to reflect on what you've accomplished without an AI telling you."),
        ("achievements", .arr []),
        ("growth_areas", .arr [])]

/-- The cache-miss tail of `analyze_statistics_with_llm` (lines 1385-1554):
missing key, raised API call, direct parse, slice parse, or — when the
guard of line 1508 is false — falling off the function with `None` and with
nothing cached.  The third component records whether `llm.ainvoke` ran. -/
def analyzeStatsFresh (openaiKey : Bool) (llmResp : Except String String)
    (cache : FeedbackCache) (cache_key : String) (now : Int) :
    Option JValue × FeedbackCache × Bool :=
  if !openaiKey then
    (some serviceUnavailableFeedback,
     cacheSet cache cache_key (serviceUnavailableFeedback, now), false)
  else
    match llmResp with
    | .error e =>
      let fb := serviceErrorExcFeedback e
      (some fb, cacheSet cache cache_key (fb, now), true)
    | .ok generated_text =>
      match jsonLoads generated_text with
      | some fb => (some fb, cacheSet cache cache_key (fb, now), true)
      | none =>
        match findIdx? '{' generated_text.data, rfindIdx? '}' generated_text.data with
        | some json_start, some jr =>
          if json_start < jr + 1 then
            match jsonLoads (String.mk (pySlice generated_text.data json_start (jr + 1))) with
            | some fb => (some fb, cacheSet cache cache_key (fb, now), true)
            | none =>
              (some serviceErrorParseFeedback,
               cacheSet cache cache_key (serviceErrorParseFeedback, now), true)
          else (none, cache, true)
        | _, _ => (none, cache, true)

/-- `analyze_statistics_with_llm` (lines 1375-1554).  `tasks` is consumed
only by the prompt rendering, which the abstract `llmResp` absorbs; `now`
is `time.time()`. -/
def analyze_statistics_with_llm (openaiKey : Bool) (llmResp : Except String String)
    (stats : TaskStatistics) (tasks : List Task) (cache : FeedbackCache) (now : Int) :
    Option JValue × FeedbackCache × Bool :=
  let cache_key := statsCacheKey stats
  match cacheLookup cache cache_key with
  | some (fb, ts) =>
    if now - ts < CACHE_DURATION then (some fb, cache, false)
    else analyzeStatsFresh openaiKey llmResp cache cache_key now
  | none => analyzeStatsFresh openaiKey llmResp cache cache_key now

/-- `str()` of a `fastapi.HTTPException`, as rendered into the error
payload's `insights`. -/
def strHTTPException (status : Nat) (detail : String) : String :=
  toString status ++ ": " ++ detail

/-- The error payload returned by the feedback endpoint's `except` clause
(lines 1579-1591); note it has only three of the six `AIFeedback` keys. -/
def errorFeedbackPayload (e : String) : JValue :=
  .obj [("summary", .str "Error Generating AI Analysis"),
        ("insights", .arr
          [.str "An unexpected error occurred",
           .str ("Error details: " ++ e),
           .str "Please try again later"]),
        ("suggestions", .arr
          [.str "Check the backend logs for more information",
           .str "Try refreshing the page",
           .str "Contact support if the issue persists"])]

/-- `GET /statistics/user/{user_id}/feedback` (lines 1557-1591).  The whole
body sits in `try: ... except Exception:`; `fastapi.HTTPException` derives
from `Exception`, so the handler's own `raise HTTPException(404)` for a
missing user is caught by its own `except`, which returns the error
payload instead of letting the 404 propagate.  (That payload then fails
`response_model=AIFeedback` validation — missing `motivation`,
`achievements`, `growth_areas` — so the HTTP client ultimately sees a 500,
not a 404 and not a normal feedback payload.) -/
def get_user_statistics_feedback (users : List User) (tasks : List Task)
    (user_id : String) (cache : FeedbackCache) (now : PyDatetime) (wallClock : Int)
    (openaiKey : Bool) (llmResp : Except String String) :
    Except HttpError (Option JValue) × FeedbackCache :=
  if (users.find? (fun u => u.id == user_id)).isNone then
    (.ok (some (errorFeedbackPayload (strHTTPException 404 "User not found"))), cache)
  else
    let stats := get_user_statistics tasks user_id now
    let ts := get_user_tasks tasks user_id
    let (fb, cache', _) := analyze_statistics_with_llm openaiKey llmResp stats ts cache wallClock
    (.ok fb, cache')

/-! ## Fixtures shared by the concrete evaluations -/

/-- A fixed `utcnow()` reading. -/
def sampleNow : PyDatetime := { year := 2025, month := 5, day := 20, hour := 12 }

/-- A later `utcnow()` reading (the update instant). -/
def sampleNow2 : PyDatetime := { year := 2025, month := 5, day := 20, hour := 13 }

/-- A deterministic stand-in for the `uuid4()` draws. -/
def sampleUuid (n : Nat) : String := "id-" ++ toString n

/-- A sample registered user. -/
def sampleUser : User := { id := "u1", username := "alice", created_at := sampleNow }

/-- A task with a single incomplete subtask, stored for user `u1`. -/
def sampleTask : Task :=
  { id := "t1", user_id := "u1", title := "Write report",
    subtasks := [{ id := "s1", task_id := "t1", title := some "Draft",
                   description := "Draft", completed := false,
                   created_at := sampleNow, updated_at := sampleNow }],
    created_at := sampleNow, updated_at := sampleNow }

/-- The process-wide chat state with one registered user and empty store,
queues and histories. -/
def sampleChatState : ChatState :=
  { users := [sampleUser], tasks := [], pending_tasks := [], pending_analyzed_tasks := [],
    chat_histories := [] }

/-- The acknowledgment string the create-task tool returns, rendered from
the task it just persisted. -/
def taskAck (t : Task) : String :=
  let dstr := match t.deadline with | some d => formatDate d | none => "No deadline"
  "✅ Task '" ++ t.title ++ "' has been created with " ++ t.priority ++ " priority" ++
    (if dstr ≠ "No deadline" then " and deadline " ++ dstr else ".")

/-- The expected stored task after completing subtask `s1` of `sampleTask`
at `sampleNow2`. -/
def sampleTaskAfterSubtaskDone : Task :=
  { id := "t1", user_id := "u1", title := "Write report", completed := true,
    subtasks := [{ id := "s1", task_id := "t1", title := some "Draft",
                   description := "Draft", completed := true,
                   created_at := sampleNow, updated_at := sampleNow2 }],
    created_at := sampleNow, updated_at := sampleNow2 }

/-! ## Decimal formats of the claim grammar

The spec's deadline grammar quantifies over strings "of the form
`YYYY-MM-DD[THH:MM[:SS][Z]]`"; these formatters produce exactly those
strings from numeric components. -/

/-- Two decimal digits (a `MM`/`DD`/`HH`/`SS` field). -/
def fmt2 (n : Nat) : List Char := [digitChar (n / 10), digitChar (n % 10)]

/-- Four decimal digits (a `YYYY` field). -/
def fmt4 (n : Nat) : List Char :=
  [digitChar (n / 1000), digitChar (n / 100 % 10), digitChar (n / 10 % 10),
   digitChar (n % 10)]

/-- A `YYYY-MM-DD` string. -/
def dateOnlyStr (y m d : Nat) : String :=
  String.mk (fmt4 y ++ '-' :: (fmt2 m ++ '-' :: fmt2 d))

/-- A `YYYY-MM-DDTHH:MM` string, optionally `Z`-suffixed. -/
def dateTimeHMStr (y m d h mi : Nat) (z : Bool) : String :=
  String.mk (fmt4 y ++ '-' :: (fmt2 m ++ '-' :: (fmt2 d ++ 'T' ::
    (fmt2 h ++ ':' :: (fmt2 mi ++ (if z then ['Z'] else []))))))

/-- A `YYYY-MM-DDTHH:MM:SS` string, optionally `Z`-suffixed. -/
def dateTimeHMSStr (y m d h mi s : Nat) (z : Bool) : String :=
  String.mk (fmt4 y ++ '-' :: (fmt2 m ++ '-' :: (fmt2 d ++ 'T' ::
    (fmt2 h ++ ':' :: (fmt2 mi ++ ':' :: (fmt2 s ++ (if z then ['Z'] else [])))))))

/-! ## Arithmetic and character lemmas for the deadline parser -/

theorem digitChar_toNat {k : Nat} (hk : k < 10) : (digitChar k).toNat = 48 + k := by
  interval_cases k <;> rfl

theorem digitChar_ne {k : Nat} (hk : k < 10) {c : Char}
    (hc : c.toNat < 48 ∨ 57 < c.toNat) : digitChar k ≠ c := by
  intro h
  have h2 := digitChar_toNat hk
  rw [h] at h2
  omega

theorem digitVal?_digitChar {k : Nat} (hk : k < 10) : digitVal? (digitChar k) = some k := by
  interval_cases k <;> rfl

theorem two_digits {n : Nat} (hn : n < 100) :
    two (digitChar (n / 10)) (digitChar (n % 10)) = some n := by
  rw [two, digitVal?_digitChar (by omega), digitVal?_digitChar (by omega)]
  show some (10 * (n / 10) + n % 10) = some n
  rw [Option.some_inj]
  omega

theorem four_digits {n : Nat} (hn : n < 10000) :
    four (digitChar (n / 1000)) (digitChar (n / 100 % 10)) (digitChar (n / 10 % 10))
      (digitChar (n % 10)) = some n := by
  rw [four, digitVal?_digitChar (by omega), digitVal?_digitChar (by omega),
    digitVal?_digitChar (by omega), digitVal?_digitChar (by omega)]
  show some (1000 * (n / 1000) + 100 * (n / 100 % 10) + 10 * (n / 10 % 10) + n % 10) = some n
  rw [Option.some_inj]
  omega

theorem pyIn_cons_ne {a c : Char} (l : List Char) (h : a ≠ c) :
    pyIn c (a :: l) = pyIn c l := by simp [pyIn, h]

theorem pyIn_cons_self (c : Char) (l : List Char) : pyIn c (c :: l) = true := by
  simp [pyIn]

theorem replaceZ_cons_ne {a : Char} (l : List Char) (h : a ≠ 'Z') :
    replaceZ (a :: l) = a :: replaceZ l := by simp [replaceZ, h]

theorem findIdx?_cons_ne {a c : Char} (l : List Char) (h : a ≠ c) :
    findIdx? c (a :: l) = (findIdx? c l).map (· + 1) := by simp [findIdx?, h]

theorem findIdx?_cons_self (c : Char) (l : List Char) : findIdx? c (c :: l) = some 0 := by
  simp [findIdx?]


theorem findIdx?_map_none {c : Char} {l : List Char} (h : (findIdx? c l).map (· + 1) = none) :
    findIdx? c l = none := by
  cases hf : findIdx? c l <;> simp [hf] at h ⊢

theorem findIdx?_append_self (c : Char) (pre post : List Char) (h : findIdx? c pre = none) :
    findIdx? c (pre ++ c :: post) = some pre.length := by
  induction pre with
  | nil => simp [findIdx?_cons_self]
  | cons a l ih =>
    by_cases ha : a = c
    · rw [findIdx?, if_pos ha] at h; exact absurd h (by simp)
    · rw [findIdx?, if_neg ha] at h
      have h' := findIdx?_map_none h
      rw [List.cons_append, findIdx?_cons_ne _ ha, ih h']
      simp

theorem findIdx?_append_none (c : Char) (l1 l2 : List Char) (h1 : findIdx? c l1 = none)
    (h2 : findIdx? c l2 = none) : findIdx? c (l1 ++ l2) = none := by
  induction l1 with
  | nil => simpa using h2
  | cons a l ih =>
    by_cases ha : a = c
    · rw [findIdx?, if_pos ha] at h1; exact absurd h1 (by simp)
    · rw [findIdx?, if_neg ha] at h1
      have h' := findIdx?_map_none h1
      rw [List.cons_append, findIdx?_cons_ne _ ha, ih h']
      rfl

theorem tzSplit_none (ts : List Char) (hm : findIdx? '-' ts = none)
    (hp : findIdx? '+' ts = none) : tzSplit ts = (ts, none) := by
  simp [tzSplit, hm, hp]

theorem tzSplit_plus (pre post : List Char)
    (hm : findIdx? '-' (pre ++ '+' :: post) = none)
    (hp : findIdx? '+' pre = none) :
    tzSplit (pre ++ '+' :: post) = (pre, some (false, post)) := by
  simp only [tzSplit, hm, findIdx?_append_self '+' pre post hp]
  have e1 : List.take pre.length (pre ++ '+' :: post) = pre := List.take_left pre _
  have e2 : List.drop (pre.length + 1) (pre ++ '+' :: post) = post := by
    have h2 : pre ++ '+' :: post = (pre ++ ['+']) ++ post := by simp
    have h3 : pre.length + 1 = (pre ++ ['+']).length := by simp
    rw [h2, h3, List.drop_left]
  rw [e1, e2]

theorem parseIsoTime_hm (h mi : Nat) (hh : h < 100) (hmi : mi < 100) :
    parseIsoTime (fmt2 h ++ ':' :: fmt2 mi) = some (h, mi, 0, 0, none) := by
  have key : ∀ c : Char, c.toNat < 48 ∨ 57 < c.toNat → c ≠ ':' →
      findIdx? c (fmt2 h ++ ':' :: fmt2 mi) = none := by
    intro c hc hcolon
    simp only [fmt2, List.cons_append, List.nil_append]
    rw [findIdx?_cons_ne _ (digitChar_ne (by omega) hc),
        findIdx?_cons_ne _ (digitChar_ne (by omega) hc),
        findIdx?_cons_ne _ (Ne.symm hcolon),
        findIdx?_cons_ne _ (digitChar_ne (by omega) hc),
        findIdx?_cons_ne _ (digitChar_ne (by omega) hc)]
    rfl
  rw [parseIsoTime, tzSplit_none _ (key '-' (by decide) (by decide)) (key '+' (by decide) (by decide))]
  simp only [fmt2, List.cons_append, List.nil_append]
  rw [hhmmss]
  rw [two_digits hh, two_digits hmi]
  rfl

theorem parseIsoTime_hms (h mi s : Nat) (hh : h < 100) (hmi : mi < 100) (hs : s < 100) :
    parseIsoTime (fmt2 h ++ ':' :: (fmt2 mi ++ ':' :: fmt2 s)) = some (h, mi, s, 0, none) := by
  have key : ∀ c : Char, c.toNat < 48 ∨ 57 < c.toNat → c ≠ ':' →
      findIdx? c (fmt2 h ++ ':' :: (fmt2 mi ++ ':' :: fmt2 s)) = none := by
    intro c hc hcolon
    simp only [fmt2, List.cons_append, List.nil_append]
    rw [findIdx?_cons_ne _ (digitChar_ne (by omega) hc),
        findIdx?_cons_ne _ (digitChar_ne (by omega) hc),
        findIdx?_cons_ne _ (Ne.symm hcolon),
        findIdx?_cons_ne _ (digitChar_ne (by omega) hc),
        findIdx?_cons_ne _ (digitChar_ne (by omega) hc),
        findIdx?_cons_ne _ (Ne.symm hcolon),
        findIdx?_cons_ne _ (digitChar_ne (by omega) hc),
        findIdx?_cons_ne _ (digitChar_ne (by omega) hc)]
    rfl
  rw [parseIsoTime, tzSplit_none _ (key '-' (by decide) (by decide)) (key '+' (by decide) (by decide))]
  simp only [fmt2, List.cons_append, List.nil_append]
  rw [hhmmss]
  simp [two_digits hh, two_digits hmi, two_digits hs]

theorem parseIsoTime_hm_utc (h mi : Nat) (hh : h < 100) (hmi : mi < 100) :
    parseIsoTime (fmt2 h ++ ':' :: (fmt2 mi ++ '+' :: '0' :: '0' :: ':' :: '0' :: '0' :: [])) =
      some (h, mi, 0, 0, some 0) := by
  have hassoc : fmt2 h ++ ':' :: (fmt2 mi ++ '+' :: '0' :: '0' :: ':' :: '0' :: '0' :: []) =
      (fmt2 h ++ ':' :: fmt2 mi) ++ '+' :: '0' :: '0' :: ':' :: '0' :: '0' :: [] := by simp
  rw [hassoc]
  have key : ∀ c : Char, c.toNat < 48 ∨ 57 < c.toNat → c ≠ ':' →
      findIdx? c (fmt2 h ++ ':' :: fmt2 mi) = none := by
    intro c hc hcolon
    simp only [fmt2, List.cons_append, List.nil_append]
    rw [findIdx?_cons_ne _ (digitChar_ne (by omega) hc),
        findIdx?_cons_ne _ (digitChar_ne (by omega) hc),
        findIdx?_cons_ne _ (Ne.symm hcolon),
        findIdx?_cons_ne _ (digitChar_ne (by omega) hc),
        findIdx?_cons_ne _ (digitChar_ne (by omega) hc)]
    rfl
  have hm : findIdx? '-' ((fmt2 h ++ ':' :: fmt2 mi) ++ '+' :: '0' :: '0' :: ':' :: '0' :: '0' :: []) = none :=
    findIdx?_append_none _ _ _ (key '-' (by decide) (by decide)) (by decide)
  rw [parseIsoTime, tzSplit_plus _ _ hm (key '+' (by decide) (by decide))]
  simp only [fmt2, List.cons_append, List.nil_append]
  rw [hhmmss]
  simp [two_digits hh, two_digits hmi]
  rw [show hhmmss ['0', '0', ':', '0', '0'] = some (0, 0, 0, 0) from rfl]
  norm_num

theorem parseIsoTime_hms_utc (h mi s : Nat) (hh : h < 100) (hmi : mi < 100) (hs : s < 100) :
    parseIsoTime (fmt2 h ++ ':' :: (fmt2 mi ++ ':' :: (fmt2 s ++
        '+' :: '0' :: '0' :: ':' :: '0' :: '0' :: []))) =
      some (h, mi, s, 0, some 0) := by
  have hassoc : fmt2 h ++ ':' :: (fmt2 mi ++ ':' :: (fmt2 s ++
        '+' :: '0' :: '0' :: ':' :: '0' :: '0' :: [])) =
      (fmt2 h ++ ':' :: (fmt2 mi ++ ':' :: fmt2 s)) ++
        '+' :: '0' :: '0' :: ':' :: '0' :: '0' :: [] := by simp
  rw [hassoc]
  have key : ∀ c : Char, c.toNat < 48 ∨ 57 < c.toNat → c ≠ ':' →
      findIdx? c (fmt2 h ++ ':' :: (fmt2 mi ++ ':' :: fmt2 s)) = none := by
    intro c hc hcolon
    simp only [fmt2, List.cons_append, List.nil_append]
    rw [findIdx?_cons_ne _ (digitChar_ne (by omega) hc),
        findIdx?_cons_ne _ (digitChar_ne (by omega) hc),
        findIdx?_cons_ne _ (Ne.symm hcolon),
        findIdx?_cons_ne _ (digitChar_ne (by omega) hc),
        findIdx?_cons_ne _ (digitChar_ne (by omega) hc),
        findIdx?_cons_ne _ (Ne.symm hcolon),
        findIdx?_cons_ne _ (digitChar_ne (by omega) hc),
        findIdx?_cons_ne _ (digitChar_ne (by omega) hc)]
    rfl
  have hm : findIdx? '-' ((fmt2 h ++ ':' :: (fmt2 mi ++ ':' :: fmt2 s)) ++
      '+' :: '0' :: '0' :: ':' :: '0' :: '0' :: []) = none :=
    findIdx?_append_none _ _ _ (key '-' (by decide) (by decide)) (by decide)
  rw [parseIsoTime, tzSplit_plus _ _ hm (key '+' (by decide) (by decide))]
  simp only [fmt2, List.cons_append, List.nil_append]
  rw [hhmmss]
  simp [two_digits hh, two_digits hmi, two_digits hs]
  rw [show hhmmss ['0', '0', ':', '0', '0'] = some (0, 0, 0, 0) from rfl]
  norm_num

theorem fromiso_format (y m d : Nat) (rest : List Char) (hy : y < 10000) (hm : m < 100)
    (hd : d < 100) :
    fromiso (fmt4 y ++ '-' :: (fmt2 m ++ '-' :: (fmt2 d ++ rest))) =
      (match rest with
       | [] => mkDatetime y m d 0 0 0 0 none
       | _sep :: tstr =>
         if tstr.isEmpty then mkDatetime y m d 0 0 0 0 none
         else
           match parseIsoTime tstr with
           | none => none
           | some (h, mi, s, us, tz) => mkDatetime y m d h mi s us tz) := by
  simp only [fmt4, fmt2, List.cons_append, List.nil_append]
  rw [fromiso]
  rw [four_digits hy]
  simp only [Option.some_bind, and_self, if_true, two_digits hm, two_digits hd]
  cases rest with
  | nil => rfl
  | cons a tstr =>
    by_cases ht : tstr.isEmpty
    · simp [ht]
    · simp only [ht, if_false, Bool.false_eq_true]
      cases hp : parseIsoTime tstr with
      | none => rfl
      | some v => obtain ⟨h', mi', s', us', tz'⟩ := v; rfl

theorem daysInMonth_le (y m : Nat) : daysInMonth y m ≤ 31 := by
  unfold daysInMonth
  split
  · split <;> omega
  · split <;> omega

theorem fromiso_time (y m d : Nat) (sep : Char) (tstr : List Char) (hy : y < 10000)
    (hm : m < 100) (hd : d < 100) (hne : tstr.isEmpty = false) :
    fromiso (fmt4 y ++ '-' :: (fmt2 m ++ '-' :: (fmt2 d ++ sep :: tstr))) =
      (match parseIsoTime tstr with
       | none => none
       | some (h, mi, s, us, tz) => mkDatetime y m d h mi s us tz) := by
  rw [fromiso_format y m d _ hy hm hd]
  dsimp only
  rw [hne]
  simp

theorem pyIn_append (c : Char) (l1 l2 : List Char) :
    pyIn c (l1 ++ l2) = (pyIn c l1 || pyIn c l2) := by
  induction l1 with
  | nil => rfl
  | cons a l ih =>
    by_cases ha : a = c
    · subst ha; simp [pyIn_cons_self]
    · rw [List.cons_append, pyIn_cons_ne _ ha, pyIn_cons_ne _ ha, ih]

theorem pyIn_fmt2 {c : Char} {n : Nat} (hn : n < 100) (hc : c.toNat < 48 ∨ 57 < c.toNat) :
    pyIn c (fmt2 n) = false := by
  rw [fmt2, pyIn_cons_ne _ (digitChar_ne (by omega) hc),
    pyIn_cons_ne _ (digitChar_ne (by omega) hc)]
  rfl

theorem pyIn_fmt4 {c : Char} {n : Nat} (hn : n < 10000) (hc : c.toNat < 48 ∨ 57 < c.toNat) :
    pyIn c (fmt4 n) = false := by
  rw [fmt4, pyIn_cons_ne _ (digitChar_ne (by omega) hc),
    pyIn_cons_ne _ (digitChar_ne (by omega) hc),
    pyIn_cons_ne _ (digitChar_ne (by omega) hc),
    pyIn_cons_ne _ (digitChar_ne (by omega) hc)]
  rfl

theorem replaceZ_append (l1 l2 : List Char) :
    replaceZ (l1 ++ l2) = replaceZ l1 ++ replaceZ l2 := by
  induction l1 with
  | nil => rfl
  | cons a l ih =>
    by_cases ha : a = 'Z'
    · subst ha; simp [replaceZ, ih]
    · rw [List.cons_append, replaceZ_cons_ne _ ha, replaceZ_cons_ne _ ha, ih, List.cons_append]

theorem replaceZ_fmt2 {n : Nat} (hn : n < 100) : replaceZ (fmt2 n) = fmt2 n := by
  rw [fmt2, replaceZ_cons_ne _ (digitChar_ne (by omega) (by decide)),
    replaceZ_cons_ne _ (digitChar_ne (by omega) (by decide))]
  rfl

theorem replaceZ_fmt4 {n : Nat} (hn : n < 10000) : replaceZ (fmt4 n) = fmt4 n := by
  rw [fmt4, replaceZ_cons_ne _ (digitChar_ne (by omega) (by decide)),
    replaceZ_cons_ne _ (digitChar_ne (by omega) (by decide)),
    replaceZ_cons_ne _ (digitChar_ne (by omega) (by decide)),
    replaceZ_cons_ne _ (digitChar_ne (by omega) (by decide))]
  rfl

theorem cacheLookup_cacheSet (c : FeedbackCache) (k : String) (v : JValue × Int) :
    cacheLookup (cacheSet c k v) k = some v := by
  induction c with
  | nil => simp [cacheSet, cacheLookup, List.find?]
  | cons e rest ih =>
    by_cases he : (e.1 == k) = true
    · simp [cacheSet, he, cacheLookup, List.find?]
    · rw [cacheSet]
      simp only [he, if_false, Bool.false_eq_true]
      rw [cacheLookup, List.find?]
      simp only [he]
      exact ih

theorem analyzeStatsFresh_invoked (llmResp : Except String String) (cache : FeedbackCache)
    (k : String) (now : Int) : (analyzeStatsFresh true llmResp cache k now).2.2 = true := by
  unfold analyzeStatsFresh
  simp only [Bool.not_true, Bool.false_eq_true, if_false]
  rcases llmResp with e | g
  · rfl
  · dsimp only
    cases hj : jsonLoads g with
    | some fb => rfl
    | none =>
      cases hf1 : findIdx? '{' g.data with
      | none => rfl
      | some js =>
        cases hf2 : rfindIdx? '}' g.data with
        | none => rfl
        | some jr =>
          dsimp only
          by_cases hlt : js < jr + 1
          · rw [if_pos hlt]
            cases jsonLoads (String.mk (pySlice g.data js (jr + 1))) <;> rfl
          · rw [if_neg hlt]


/-- When the referenced user exists, `create_task_from_llm` persists exactly
one task (the `llmTask` of its inputs) and returns its confirmation
dictionary. -/
theorem create_task_from_llm_found (users : List User) (tasks : List Task) (td : TaskData)
    (uid : String) (uuid : Nat → String) (now : PyDatetime) (support : String)
    (hn : (users.find? (fun u => u.id == uid)).isNone = false) :
    create_task_from_llm users tasks td uid uuid now support =
      (.ok ("Task '" ++ (llmTask td uid uuid now support).title ++ "' created successfully")
         (llmTask td uid uuid now support).id (llmTask td uid uuid now support).title
         (llmTask td uid uuid now support).priority
         (match (llmTask td uid uuid now support).deadline with
          | some d => formatDate d | none => "No deadline"),
       tasks ++ [llmTask td uid uuid now support]) := by
  unfold create_task_from_llm
  rw [hn]
  rfl

/-- A fold that only rewrites the `tasks` field preserves both pending
queues. -/
theorem foldl_tasks_pending {β : Type} (f : ChatState → β → List Task) (l : List β)
    (st : ChatState) :
    ((l.foldl (fun acc p => { acc with tasks := f acc p }) st).pending_tasks =
        st.pending_tasks ∧
     (l.foldl (fun acc p => { acc with tasks := f acc p }) st).pending_analyzed_tasks =
        st.pending_analyzed_tasks) := by
  induction l generalizing st with
  | nil => exact ⟨rfl, rfl⟩
  | cons a rest ih => exact ih _

/-- `process_pending_tasks` leaves both queues empty. -/
theorem process_pending_tasks_empties (st : ChatState) (k : Bool) (r : Option String)
    (uuid2 : Nat → Nat → String) (now : PyDatetime) (support : String) :
    (process_pending_tasks st k r uuid2 now support).pending_tasks = [] ∧
    (process_pending_tasks st k r uuid2 now support).pending_analyzed_tasks = [] := by
  unfold process_pending_tasks
  constructor
  · exact ((foldl_tasks_pending _ _ _).1).trans ((foldl_tasks_pending _ _ _).1)
  · exact (foldl_tasks_pending _ _ _).2

/-! ## Claims -/

/-- After `update_one({"id": tid}, {"$set": ...})`, re-fetching with
`find_one({"id": tid})` returns the rewritten first match, provided the
rewrite preserves the `id` field. -/
theorem find?_setFirst (tasks : List Task) (tid : String) (f : Task → Task) (t : Task)
    (hf : ∀ x, (f x).id = x.id)
    (h : tasks.find? (fun x => x.id == tid) = some t) :
    (setFirst tasks tid f).find? (fun x => x.id == tid) = some (f t) := by
  induction tasks with
  | nil => simp [List.find?] at h
  | cons a rest ih =>
    by_cases ha : (a.id == tid) = true
    · rw [List.find?, ha] at h
      simp only [Option.some_inj] at h
      subst h
      simp [setFirst, ha, List.find?, hf]
    · rw [List.find?] at h
      simp only [ha] at h
      simp only [setFirst, ha, if_false, Bool.false_eq_true]
      rw [List.find?]
      simp only [ha]
      exact ih h

/-- Claim C6: for every valid date, the Deadline Parser maps `YYYY-MM-DD`
to 23:59:59 on that date, and maps `YYYY-MM-DDTHH:MM`, `YYYY-MM-DDTHH:MM:SS`
— with or without a trailing `Z` — to the corresponding instant, with `Z`
normalized to the UTC offset `+00:00` (embedded as `tzOffset = some 0`). -/
theorem deadline_parser_grammar (y m d h mi s : Nat)
    (hv : validDatetimeFields y m d 0 0 0 0)
    (hh : h ≤ 23) (hmi : mi ≤ 59) (hs : s ≤ 59) :
    parse_deadline (dateOnlyStr y m d) =
      some { year := y, month := m, day := d, hour := 23, minute := 59, second := 59 } ∧
    parse_deadline (dateTimeHMStr y m d h mi false) =
      some { year := y, month := m, day := d, hour := h, minute := mi } ∧
    parse_deadline (dateTimeHMSStr y m d h mi s false) =
      some { year := y, month := m, day := d, hour := h, minute := mi, second := s } ∧
    parse_deadline (dateTimeHMStr y m d h mi true) =
      some { year := y, month := m, day := d, hour := h, minute := mi, tzOffset := some 0 } ∧
    parse_deadline (dateTimeHMSStr y m d h mi s true) =
      some { year := y, month := m, day := d, hour := h, minute := mi, second := s,
             tzOffset := some 0 } := by
  unfold validDatetimeFields at hv
  obtain ⟨hy1, hy2, hm1, hm2, hd1, hd2, -⟩ := hv
  have hy : y < 10000 := by omega
  have hm' : m < 100 := by omega
  have hd' : d < 100 := by have := daysInMonth_le y m; omega
  have hh' : h < 100 := by omega
  have hmi' : mi < 100 := by omega
  have hs' : s < 100 := by omega
  have hmk : ∀ (a b c : Nat) (tz : Option Int), a ≤ 23 → b ≤ 59 → c ≤ 59 →
      mkDatetime y m d a b c 0 tz =
        some { year := y, month := m, day := d, hour := a, minute := b, second := c,
               microsecond := 0, tzOffset := tz } := by
    intro a b c tz h1 h2 h3
    rw [mkDatetime, if_pos]
    exact ⟨hy1, hy2, hm1, hm2, hd1, hd2, h1, h2, h3, by omega⟩
  refine ⟨?_, ?_, ?_, ?_, ?_⟩
  · -- YYYY-MM-DD
    have hdata : (dateOnlyStr y m d).data = fmt4 y ++ '-' :: (fmt2 m ++ '-' :: fmt2 d) := rfl
    have hin : pyIn 'T' (fmt4 y ++ '-' :: (fmt2 m ++ '-' :: fmt2 d)) = false := by
      rw [pyIn_append, pyIn_fmt4 hy (by decide), pyIn_cons_ne _ (by decide),
          pyIn_append, pyIn_fmt2 hm' (by decide), pyIn_cons_ne _ (by decide),
          pyIn_fmt2 hd' (by decide)]
      rfl
    rw [parse_deadline, hdata, hin]
    simp only [Bool.false_eq_true, if_false, List.append_assoc, List.cons_append]
    rw [fromiso_time y m d 'T' ('2' :: '3' :: ':' :: '5' :: '9' :: ':' :: '5' :: '9' :: [])
      hy hm' hd' rfl]
    rw [show parseIsoTime ('2' :: '3' :: ':' :: '5' :: '9' :: ':' :: '5' :: '9' :: []) =
        some (23, 59, 59, 0, none) from rfl]
    exact hmk 23 59 59 none (by omega) (by omega) (by omega)
  · -- YYYY-MM-DDTHH:MM
    have hdata : (dateTimeHMStr y m d h mi false).data =
        fmt4 y ++ '-' :: (fmt2 m ++ '-' :: (fmt2 d ++ 'T' ::
          (fmt2 h ++ ':' :: (fmt2 mi ++ [])))) := rfl
    have hin : pyIn 'T' (fmt4 y ++ '-' :: (fmt2 m ++ '-' :: (fmt2 d ++ 'T' ::
        (fmt2 h ++ ':' :: (fmt2 mi ++ []))))) = true := by
      rw [pyIn_append, pyIn_fmt4 hy (by decide), pyIn_cons_ne _ (by decide),
          pyIn_append, pyIn_fmt2 hm' (by decide), pyIn_cons_ne _ (by decide),
          pyIn_append, pyIn_fmt2 hd' (by decide), pyIn_cons_self]
      rfl
    have hrep : replaceZ (fmt4 y ++ '-' :: (fmt2 m ++ '-' :: (fmt2 d ++ 'T' ::
        (fmt2 h ++ ':' :: (fmt2 mi ++ []))))) =
        fmt4 y ++ '-' :: (fmt2 m ++ '-' :: (fmt2 d ++ 'T' ::
          (fmt2 h ++ ':' :: (fmt2 mi ++ [])))) := by
      rw [replaceZ_append, replaceZ_fmt4 hy, replaceZ_cons_ne _ (by decide),
          replaceZ_append, replaceZ_fmt2 hm', replaceZ_cons_ne _ (by decide),
          replaceZ_append, replaceZ_fmt2 hd', replaceZ_cons_ne _ (by decide),
          replaceZ_append, replaceZ_fmt2 hh', replaceZ_cons_ne _ (by decide),
          replaceZ_append, replaceZ_fmt2 hmi']
      rfl
    rw [parse_deadline, hdata, hin, if_pos rfl, hrep]
    rw [show fmt2 mi ++ [] = fmt2 mi from by simp]
    rw [fromiso_time y m d 'T' (fmt2 h ++ ':' :: fmt2 mi) hy hm' hd' (by simp [fmt2])]
    rw [parseIsoTime_hm h mi hh' hmi']
    exact hmk h mi 0 none hh hmi (by omega)
  · -- YYYY-MM-DDTHH:MM:SS
    have hdata : (dateTimeHMSStr y m d h mi s false).data =
        fmt4 y ++ '-' :: (fmt2 m ++ '-' :: (fmt2 d ++ 'T' ::
          (fmt2 h ++ ':' :: (fmt2 mi ++ ':' :: (fmt2 s ++ []))))) := rfl
    have hin : pyIn 'T' (fmt4 y ++ '-' :: (fmt2 m ++ '-' :: (fmt2 d ++ 'T' ::
        (fmt2 h ++ ':' :: (fmt2 mi ++ ':' :: (fmt2 s ++ [])))))) = true := by
      rw [pyIn_append, pyIn_fmt4 hy (by decide), pyIn_cons_ne _ (by decide),
          pyIn_append, pyIn_fmt2 hm' (by decide), pyIn_cons_ne _ (by decide),
          pyIn_append, pyIn_fmt2 hd' (by decide), pyIn_cons_self]
      rfl
    have hrep : replaceZ (fmt4 y ++ '-' :: (fmt2 m ++ '-' :: (fmt2 d ++ 'T' ::
        (fmt2 h ++ ':' :: (fmt2 mi ++ ':' :: (fmt2 s ++ [])))))) =
        fmt4 y ++ '-' :: (fmt2 m ++ '-' :: (fmt2 d ++ 'T' ::
          (fmt2 h ++ ':' :: (fmt2 mi ++ ':' :: (fmt2 s ++ []))))) := by
      rw [replaceZ_append, replaceZ_fmt4 hy, replaceZ_cons_ne _ (by decide),
          replaceZ_append, replaceZ_fmt2 hm', replaceZ_cons_ne _ (by decide),
          replaceZ_append, replaceZ_fmt2 hd', replaceZ_cons_ne _ (by decide),
          replaceZ_append, replaceZ_fmt2 hh', replaceZ_cons_ne _ (by decide),
          replaceZ_append, replaceZ_fmt2 hmi', replaceZ_cons_ne _ (by decide),
          replaceZ_append, replaceZ_fmt2 hs']
      rfl
    rw [parse_deadline, hdata, hin, if_pos rfl, hrep]
    rw [show fmt2 s ++ [] = fmt2 s from by simp]
    rw [fromiso_time y m d 'T' (fmt2 h ++ ':' :: (fmt2 mi ++ ':' :: fmt2 s))
      hy hm' hd' (by simp [fmt2])]
    rw [parseIsoTime_hms h mi s hh' hmi' hs']
    exact hmk h mi s none hh hmi hs
  · -- YYYY-MM-DDTHH:MMZ
    have hdata : (dateTimeHMStr y m d h mi true).data =
        fmt4 y ++ '-' :: (fmt2 m ++ '-' :: (fmt2 d ++ 'T' ::
          (fmt2 h ++ ':' :: (fmt2 mi ++ ['Z'])))) := rfl
    have hin : pyIn 'T' (fmt4 y ++ '-' :: (fmt2 m ++ '-' :: (fmt2 d ++ 'T' ::
        (fmt2 h ++ ':' :: (fmt2 mi ++ ['Z']))))) = true := by
      rw [pyIn_append, pyIn_fmt4 hy (by decide), pyIn_cons_ne _ (by decide),
          pyIn_append, pyIn_fmt2 hm' (by decide), pyIn_cons_ne _ (by decide),
          pyIn_append, pyIn_fmt2 hd' (by decide), pyIn_cons_self]
      rfl
    have hrep : replaceZ (fmt4 y ++ '-' :: (fmt2 m ++ '-' :: (fmt2 d ++ 'T' ::
        (fmt2 h ++ ':' :: (fmt2 mi ++ ['Z']))))) =
        fmt4 y ++ '-' :: (fmt2 m ++ '-' :: (fmt2 d ++ 'T' ::
          (fmt2 h ++ ':' :: (fmt2 mi ++ '+' :: '0' :: '0' :: ':' :: '0' :: '0' :: [])))) := by
      rw [replaceZ_append, replaceZ_fmt4 hy, replaceZ_cons_ne _ (by decide),
          replaceZ_append, replaceZ_fmt2 hm', replaceZ_cons_ne _ (by decide),
          replaceZ_append, replaceZ_fmt2 hd', replaceZ_cons_ne _ (by decide),
          replaceZ_append, replaceZ_fmt2 hh', replaceZ_cons_ne _ (by decide),
          replaceZ_append, replaceZ_fmt2 hmi']
      rfl
    rw [parse_deadline, hdata, hin, if_pos rfl, hrep]
    rw [fromiso_time y m d 'T'
      (fmt2 h ++ ':' :: (fmt2 mi ++ '+' :: '0' :: '0' :: ':' :: '0' :: '0' :: []))
      hy hm' hd' (by simp [fmt2])]
    rw [parseIsoTime_hm_utc h mi hh' hmi']
    exact hmk h mi 0 (some 0) hh hmi (by omega)
  · -- YYYY-MM-DDTHH:MM:SSZ
    have hdata : (dateTimeHMSStr y m d h mi s true).data =
        fmt4 y ++ '-' :: (fmt2 m ++ '-' :: (fmt2 d ++ 'T' ::
          (fmt2 h ++ ':' :: (fmt2 mi ++ ':' :: (fmt2 s ++ ['Z']))))) := rfl
    have hin : pyIn 'T' (fmt4 y ++ '-' :: (fmt2 m ++ '-' :: (fmt2 d ++ 'T' ::
        (fmt2 h ++ ':' :: (fmt2 mi ++ ':' :: (fmt2 s ++ ['Z'])))))) = true := by
      rw [pyIn_append, pyIn_fmt4 hy (by decide), pyIn_cons_ne _ (by decide),
          pyIn_append, pyIn_fmt2 hm' (by decide), pyIn_cons_ne _ (by decide),
          pyIn_append, pyIn_fmt2 hd' (by decide), pyIn_cons_self]
      rfl
    have hrep : replaceZ (fmt4 y ++ '-' :: (fmt2 m ++ '-' :: (fmt2 d ++ 'T' ::
        (fmt2 h ++ ':' :: (fmt2 mi ++ ':' :: (fmt2 s ++ ['Z'])))))) =
        fmt4 y ++ '-' :: (fmt2 m ++ '-' :: (fmt2 d ++ 'T' ::
          (fmt2 h ++ ':' :: (fmt2 mi ++ ':' ::
            (fmt2 s ++ '+' :: '0' :: '0' :: ':' :: '0' :: '0' :: []))))) := by
      rw [replaceZ_append, replaceZ_fmt4 hy, replaceZ_cons_ne _ (by decide),
          replaceZ_append, replaceZ_fmt2 hm', replaceZ_cons_ne _ (by decide),
          replaceZ_append, replaceZ_fmt2 hd', replaceZ_cons_ne _ (by decide),
          replaceZ_append, replaceZ_fmt2 hh', replaceZ_cons_ne _ (by decide),
          replaceZ_append, replaceZ_fmt2 hmi', replaceZ_cons_ne _ (by decide),
          replaceZ_append, replaceZ_fmt2 hs']
      rfl
    rw [parse_deadline, hdata, hin, if_pos rfl, hrep]
    rw [fromiso_time y m d 'T'
      (fmt2 h ++ ':' :: (fmt2 mi ++ ':' ::
        (fmt2 s ++ '+' :: '0' :: '0' :: ':' :: '0' :: '0' :: [])))
      hy hm' hd' (by simp [fmt2])]
    rw [parseIsoTime_hms_utc h mi s hh' hmi' hs']
    exact hmk h mi s (some 0) hh hmi hs

/-- Witness for C6: the grammar theorem evaluated at 2025-06-15 09:05:07. -/
theorem deadline_parser_grammar_witness :
    validDatetimeFields 2025 6 15 0 0 0 0 ∧
    parse_deadline (dateOnlyStr 2025 6 15) =
      some { year := 2025, month := 6, day := 15, hour := 23, minute := 59, second := 59 } ∧
    parse_deadline (dateTimeHMSStr 2025 6 15 9 5 7 true) =
      some { year := 2025, month := 6, day := 15, hour := 9, minute := 5, second := 7,
             tzOffset := some 0 } :=
  ⟨by decide,
   (deadline_parser_grammar 2025 6 15 9 5 7 (by decide) (by decide) (by decide) (by decide)).1,
   (deadline_parser_grammar 2025 6 15 9 5 7 (by decide) (by decide) (by decide)
     (by decide)).2.2.2.2⟩

/-- Claim C7: every deadline string that is malformed (the parser model
rejects it) or equal to the literal tokens `"null"` / `"not specified"`
yields "no deadline": the guard of lines 855-864 skips the tokens, and the
`try/except` of lines 866-868 converts every parse failure into an absent
deadline, so the embedded field computation is total — nothing propagates
to the caller. -/
theorem deadline_malformed_yields_none (s : String)
    (h : s = "null" ∨ s = "not specified" ∨ parse_deadline s = none) :
    deadlineField (some (.str s)) = none := by
  rcases h with h | h | h
  · subst h; rfl
  · subst h; rfl
  · rw [deadlineField]
    split
    · exact h
    · rfl

/-- Witness for C7: the token `"null"` and a malformed date both yield no
deadline. -/
theorem deadline_malformed_yields_none_witness :
    (("null" : String) = "null" ∨ ("null" : String) = "not specified" ∨
      parse_deadline "null" = none) ∧
    deadlineField (some (.str "null")) = none ∧
    (("sometime soon" : String) = "null" ∨ ("sometime soon" : String) = "not specified" ∨
      parse_deadline "sometime soon" = none) ∧
    deadlineField (some (.str "sometime soon")) = none :=
  ⟨Or.inl rfl, deadline_malformed_yields_none "null" (Or.inl rfl),
   Or.inr (Or.inr rfl),
   deadline_malformed_yields_none "sometime soon" (Or.inr (Or.inr rfl))⟩

/-- Claim C8: for every raw LLM text that parses in its entirety as a JSON
object, the extractor returns exactly that parsed object — no keys added,
removed or altered, and no fallback substituted (line 531's direct parse
succeeds and line 533 returns it). -/
theorem extractor_valid_json_unchanged (generated_text input_text : String)
    (kvs : List (String × JValue))
    (h : jsonLoads generated_text = some (.obj kvs)) :
    analyze_task_with_llm true (some generated_text) input_text = some (.obj kvs) := by
  simp [analyze_task_with_llm, extract_task_json, h]

/-- Witness for C8: a concrete two-key object passes through unchanged. -/
theorem extractor_valid_json_unchanged_witness :
    jsonLoads "\x7b\"title\": \"Pack bags\", \"priority\": \"high\"\x7d" =
      some (.obj [("title", .str "Pack bags"), ("priority", .str "high")]) ∧
    analyze_task_with_llm true
        (some "\x7b\"title\": \"Pack bags\", \"priority\": \"high\"\x7d") "trip" =
      some (.obj [("title", .str "Pack bags"), ("priority", .str "high")]) :=
  ⟨rfl, extractor_valid_json_unchanged _ "trip" _ rfl⟩

/-- Claim C5: when the user exists and the LLM call raises (unreachable
provider, timeout — `llmResp = none`), `POST /process-task` still persists a
task for that user built from the fixed fallback analysis: priority
`"medium"`, exactly one subtask titled `"Review task details"`, and the
result is `.ok` — the failure of the AI step never surfaces as an HTTP
error. -/
theorem fallback_task_persisted (users : List User) (tasks : List Task)
    (togetherKey : Bool) (text uid : String) (uuid : Nat → String) (now : PyDatetime)
    (hu : (users.find? (fun u => u.id == uid)).isSome = true) :
    ∃ t : Task,
      process_natural_language_task users tasks true togetherKey none ⟨text, uid⟩ uuid now =
        (.ok t, tasks ++ [t]) ∧
      t.user_id = uid ∧ t.priority = "medium" ∧
      t.subtasks.map (fun st => st.title) = [some "Review task details"] := by
  have hn : (users.find? (fun u => u.id == uid)).isNone = false := by
    cases hf : users.find? (fun u => u.id == uid) <;> simp [hf] at hu ⊢
  refine ⟨{ id := uuid 0, user_id := uid, title := text, description := some text,
            deadline := none, priority := "medium",
            subtasks := [{ id := uuid 1, task_id := uuid 0,
                           title := some "Review task details",
                           description := "Review task details", completed := false,
                           deadline := none, order := 0,
                           created_at := now, updated_at := now }],
            emotional_support := some "Let's start by clarifying what needs to be done.",
            created_at := now, updated_at := now }, ?_, rfl, rfl, rfl⟩
  unfold process_natural_language_task
  rw [hn]
  rfl

/-- Witness for C5: the concrete run for user `u1`. -/
theorem fallback_task_persisted_witness :
    (([sampleUser] : List User).find? (fun u => u.id == "u1")).isSome = true ∧
    (∃ t : Task,
      process_natural_language_task [sampleUser] [] true false none
          ⟨"plan a trip", "u1"⟩ sampleUuid sampleNow = (.ok t, [] ++ [t]) ∧
      t.user_id = "u1" ∧ t.priority = "medium" ∧
      t.subtasks.map (fun st => st.title) = [some "Review task details"]) :=
  ⟨rfl, fallback_task_persisted [sampleUser] [] false "plan a trip" "u1" sampleUuid
    sampleNow rfl⟩

/-- Claim C9: with a configured key, a first feedback request on a cache
miss invokes the client and caches the parsed feedback; a second request
with the same fingerprint while the entry is younger than `CACHE_DURATION`
returns the cached feedback without invoking the client again; once the
entry is older than the duration, the client is invoked anew. -/
theorem feedback_cache_hit_and_expiry (stats : TaskStatistics) (tasks : List Task)
    (cache0 : FeedbackCache) (t1 t2 : Int) (g1 : String) (fb1 : JValue)
    (resp2 : Except String String)
    (hmiss : cacheLookup cache0 (statsCacheKey stats) = none)
    (hparse : jsonLoads g1 = some fb1)
    (hfresh : t2 - t1 < 3600) :
    analyze_statistics_with_llm true (.ok g1) stats tasks cache0 t1 =
      (some fb1, cacheSet cache0 (statsCacheKey stats) (fb1, t1), true) ∧
    analyze_statistics_with_llm true resp2 stats tasks
        (cacheSet cache0 (statsCacheKey stats) (fb1, t1)) t2 =
      (some fb1, cacheSet cache0 (statsCacheKey stats) (fb1, t1), false) ∧
    (∀ (t3 : Int) (resp3 : Except String String), 3600 < t3 - t1 →
       (analyze_statistics_with_llm true resp3 stats tasks
          (cacheSet cache0 (statsCacheKey stats) (fb1, t1)) t3).2.2 = true) := by
  have hhit := cacheLookup_cacheSet cache0 (statsCacheKey stats) (fb1, t1)
  refine ⟨?_, ?_, ?_⟩
  · rw [analyze_statistics_with_llm, hmiss]
    unfold analyzeStatsFresh
    simp only [Bool.not_true, Bool.false_eq_true, if_false]
    rw [hparse]
  · rw [analyze_statistics_with_llm, hhit]
    dsimp only
    rw [if_pos (show t2 - t1 < CACHE_DURATION from hfresh)]
  · intro t3 resp3 hold
    rw [analyze_statistics_with_llm, hhit]
    dsimp only
    have hnot : ¬ (t3 - t1 < CACHE_DURATION) := by unfold CACHE_DURATION; omega
    rw [if_neg hnot]
    exact analyzeStatsFresh_invoked resp3 _ _ _

/-- Witness for C9: a concrete cached entry at `t = 0` is served from the
cache at `t = 10` without consulting the (failing) client. -/
theorem feedback_cache_hit_and_expiry_witness :
    cacheLookup [] (statsCacheKey (get_user_statistics [] "u1" sampleNow)) = none ∧
    jsonLoads "\x7b\"summary\": \"well done\"\x7d" =
      some (.obj [("summary", .str "well done")]) ∧
    ((10 : Int) - 0 < 3600) ∧
    analyze_statistics_with_llm true (.error "timeout")
        (get_user_statistics [] "u1" sampleNow) []
        (cacheSet [] (statsCacheKey (get_user_statistics [] "u1" sampleNow))
          (.obj [("summary", .str "well done")], 0)) 10 =
      (some (.obj [("summary", .str "well done")]),
       cacheSet [] (statsCacheKey (get_user_statistics [] "u1" sampleNow))
         (.obj [("summary", .str "well done")], 0), false) :=
  ⟨rfl, rfl, by norm_num,
   (feedback_cache_hit_and_expiry (get_user_statistics [] "u1" sampleNow) [] [] 0 10
     "\x7b\"summary\": \"well done\"\x7d" (.obj [("summary", .str "well done")])
     (.error "timeout") rfl rfl (by norm_num)).2.1⟩

/-- Claim C3 (counterexample): the claim states that the create-task tool
appends the request to the process-wide pending queue and returns an
acknowledgment without waiting for persistence (so the store is unchanged
within the call).  At this concrete invocation both parts fail at once: the
pending queue is exactly as before (nothing was appended), so the stated
conjunction is false — the tool ran `create_task_from_llm` to completion
instead (see the amended theorem). -/
theorem create_task_tool_not_enqueued_cex :
    ¬ ((create_task_sync "Buy milk | groceries | high | 2025-05-21" "u1"
          sampleChatState sampleUuid sampleNow "You can do it").2.pending_tasks ≠
        sampleChatState.pending_tasks ∧
       (create_task_sync "Buy milk | groceries | high | 2025-05-21" "u1"
          sampleChatState sampleUuid sampleNow "You can do it").2.tasks =
        sampleChatState.tasks) := by
  intro hcl
  exact hcl.1 rfl

/-- Claim C3 (amended): the create-task tool leaves both pending queues
untouched and synchronously persists the parsed task, returning the
acknowledgment rendered from the persisted result; in the chat flow the
response returned to the caller is the agent's output computed before the
drain, and `process_pending_tasks` has already emptied both queues by the
time the response is returned (the drain happens inside the request, before
`return`, not after). -/
theorem create_task_tool_synchronous (st : ChatState) (query uid support message : String)
    (uuid : Nat → String) (uuid2 : Nat → Nat → String) (now : PyDatetime)
    (llmResp : Option String) (agentRun : ChatState → String × ChatState)
    (hu : (st.users.find? (fun u => u.id == uid)).isSome = true) :
    ((create_task_sync query uid st uuid now support).2.pending_tasks = st.pending_tasks ∧
     (create_task_sync query uid st uuid now support).2.pending_analyzed_tasks =
       st.pending_analyzed_tasks) ∧
    (∃ t : Task,
       (create_task_sync query uid st uuid now support).2.tasks = st.tasks ++ [t] ∧
       (create_task_sync query uid st uuid now support).1 = taskAck t) ∧
    ((chat_with_llm st message uid true agentRun llmResp uuid2 now support).1 =
       .ok (agentRun st).1 ∧
     (chat_with_llm st message uid true agentRun llmResp uuid2 now
        support).2.pending_tasks = [] ∧
     (chat_with_llm st message uid true agentRun llmResp uuid2 now
        support).2.pending_analyzed_tasks = []) := by
  have hn : (st.users.find? (fun u => u.id == uid)).isNone = false := by
    cases hf : st.users.find? (fun u => u.id == uid) <;> simp [hf] at hu ⊢
  refine ⟨⟨?_, ?_⟩, ?_, ?_, ?_, ?_⟩
  · unfold create_task_sync
    simp only [create_task_from_llm_found _ _ _ _ _ _ _ hn]
  · unfold create_task_sync
    simp only [create_task_from_llm_found _ _ _ _ _ _ _ hn]
  · refine ⟨llmTask (syncTaskData query) uid uuid now support, ?_, ?_⟩ <;>
      (unfold create_task_sync
       simp only [create_task_from_llm_found _ _ _ _ _ _ _ hn]
       try rfl)
  · unfold chat_with_llm
    rw [hn]
    simp only [Bool.false_eq_true, if_false, Bool.not_true]
  · unfold chat_with_llm
    rw [hn]
    simp only [Bool.false_eq_true, if_false, Bool.not_true]
    rcases agentRun st with ⟨resp, st1⟩
    exact (process_pending_tasks_empties _ _ _ _ _ _).1
  · unfold chat_with_llm
    rw [hn]
    simp only [Bool.false_eq_true, if_false, Bool.not_true]
    rcases agentRun st with ⟨resp, st1⟩
    exact (process_pending_tasks_empties _ _ _ _ _ _).2

/-- Witness for C3 (amended): the concrete tool invocation for user `u1`. -/
theorem create_task_tool_synchronous_witness :
    (sampleChatState.users.find? (fun u => u.id == "u1")).isSome = true ∧
    ((create_task_sync "Buy milk | groceries | high | 2025-05-21" "u1" sampleChatState
        sampleUuid sampleNow "nice").2.pending_tasks = sampleChatState.pending_tasks ∧
     (create_task_sync "Buy milk | groceries | high | 2025-05-21" "u1" sampleChatState
        sampleUuid sampleNow "nice").2.pending_analyzed_tasks =
       sampleChatState.pending_analyzed_tasks) :=
  ⟨rfl, (create_task_tool_synchronous sampleChatState
    "Buy milk | groceries | high | 2025-05-21" "u1" "nice" "hello" sampleUuid
    (fun _ _ => "id2") sampleNow none (fun s => ("ok", s)) rfl).1⟩

/-- Claim C10: after a successful `PUT /tasks/{task_id}/subtasks/{subtask_id}`
whose payload sets at least one field, the stored task's `completed` flag
equals the conjunction of the `completed` flags of all its subtasks
(line 793 recomputes `all_completed` over the updated array and line 798
writes it) — in particular it is reset to `false` on a previously completed
task when a subtask is marked incomplete. -/
theorem update_subtask_recomputes_completed (tasks : List Task)
    (task_id subtask_id : String) (u : SubtaskUpdate) (now : PyDatetime) (t' : Task)
    (hset : u.isSet = true)
    (hok : (update_subtask tasks task_id subtask_id u now).1 = .ok t') :
    t'.completed = t'.subtasks.all (fun s => s.completed) := by
  cases hfind : tasks.find? (fun t => t.id == task_id) with
  | none =>
    simp only [update_subtask, hfind] at hok
    exact absurd hok (by simp)
  | some t =>
    cases hidx : t.subtasks.findIdx? (fun s => s.id == subtask_id) with
    | none =>
      simp only [update_subtask, hfind, hidx] at hok
      exact absurd hok (by simp)
    | some i =>
      simp only [update_subtask, hfind, hidx, hset, if_true] at hok
      have hre := find?_setFirst tasks task_id
        (fun old => { old with
          subtasks := modifyIdx t.subtasks i (fun s => applySubtaskUpdate s u now),
          completed := (modifyIdx t.subtasks i (fun s => applySubtaskUpdate s u now)).all
            (fun s => s.completed),
          updated_at := now }) t (fun x => rfl) hfind
      rw [refetch, hre] at hok
      simp only [Except.ok.injEq] at hok
      subst hok
      rfl

/-- Witness for C10: the concrete payload `completed := true` on the sample
task flips the stored task's flag to the conjunction of its (now all
completed) subtasks. -/
theorem update_subtask_recomputes_completed_witness :
    SubtaskUpdate.isSet { completed := some true } = true ∧
    (update_subtask [sampleTask] "t1" "s1" { completed := some true } sampleNow2).1 =
      .ok sampleTaskAfterSubtaskDone ∧
    sampleTaskAfterSubtaskDone.completed =
      sampleTaskAfterSubtaskDone.subtasks.all (fun s => s.completed) :=
  ⟨rfl, rfl,
    update_subtask_recomputes_completed [sampleTask] "t1" "s1"
      { completed := some true } sampleNow2 sampleTaskAfterSubtaskDone rfl rfl⟩

/-- Claim C1: the claim states that a `PUT /tasks/{task_id}` payload setting
`completed := true` also sets every contained subtask's `completed` flag in
the stored state.  The code evaluated at a task with one incomplete subtask
shows the opposite: the stored (and returned) task has `completed = true`
while its subtask still has `completed = false` — lines 714-716 mutate only
the local copy, and the `$set update_data` write of line 719 does not
include `subtasks`.  This contradicts both the in-code comment
"Update all subtasks to completed" and the spec. -/
theorem update_task_completed_not_propagated :
    ((update_task [sampleTask] "t1" { completed := some true } sampleNow2).1.toOption.map
        (fun t => (t.completed, t.subtasks.map (fun s => s.completed)))) =
      some (true, [false]) ∧
    ((update_task [sampleTask] "t1" { completed := some true } sampleNow2).2.map
        (fun t => (t.completed, t.subtasks.map (fun s => s.completed)))) =
      [(true, [false])] := ⟨rfl, rfl⟩

/-- Claim C2: the claim states that whenever the raw LLM text has no
parseable JSON, the extractor returns the fixed fallback object.  That is
true when a first-`{` / last-`}` slice exists and fails to parse (second
conjunct), but when the text has no such slice at all the guard at
line 540 is false, no exception is raised, and the function falls off its
end returning Python `None` (first conjunct) — not the fallback object, and
not an object of any shape (the caller then crashes on `None.get`). -/
theorem analyze_no_brace_returns_none :
    analyze_task_with_llm true (some "I cannot produce structured output.")
        "write the report" = none ∧
    analyze_task_with_llm true (some "here it is: \x7bnot json\x7d done")
        "write the report" = some (fallbackAnalysis "write the report") := ⟨rfl, rfl⟩

/-- Claim C4: the claim states that a request referencing an absent user
surfaces a 404, in particular `GET /statistics/user/{user_id}/feedback`.
`get_task` does raise a 404 for an absent task (second conjunct), but the
feedback endpoint wraps its own `raise HTTPException(404)` in
`except Exception`, which catches it and returns the error-feedback payload
instead: evaluated at an empty user store the handler returns a payload,
not a not-found error. -/
theorem feedback_endpoint_swallows_not_found :
    (get_user_statistics_feedback [] [] "ghost" [] sampleNow 0 true (.ok "raw")).1 =
      .ok (some (errorFeedbackPayload "404: User not found")) ∧
    get_task [] "ghost" = .error (.notFound "Task not found") := ⟨rfl, rfl⟩

end TaskAssistant
